import Mathlib

/-!
Verification of the DrawingGuess canvas subsystem.

This development embeds, in Lean 4, the camera / coordinate-transform code of
components/@builtins/utils/zoom.py and the canvas host of
src/surfaces/projects/canvas.py (history engine, modal-dialog stage and the
input-dispatch pipeline), together with the size-fixing branch of
src/surfaces/boards/canvas.py, and proves properties of the embedded code.

Floating-point values of the Python source are modelled as rationals, so the
"within floating-point tolerance" clauses of the properties become exact
equalities.  Pixel coordinates and pygame rectangles are modelled over the
integers, matching pygame's integer rect arithmetic (Python floor division is
Int.fdiv).
-/

namespace DrawingGuess

/-- A 2-d vector of rationals, modelling a Python pair of floats. -/
structure Vec2 where
  x : ℚ
  y : ℚ
deriving DecidableEq, Repr

/-- Coercion of an integer pixel pair (for instance a pygame mouse position)
into the rational plane. -/
def Vec2.ofPair (p : ℤ × ℤ) : Vec2 := ⟨(p.1 : ℚ), (p.2 : ℚ)⟩

/-- A pygame.Rect: integer position and size. -/
structure Rect where
  x : ℤ
  y : ℤ
  w : ℤ
  h : ℤ
deriving DecidableEq, Repr

/-- Embedding of pygame.Rect.collidepoint: the right and bottom edges are
outside the rectangle. -/
def Rect.containsB (r : Rect) (p : ℤ × ℤ) : Bool :=
  decide (r.x ≤ p.1) && decide (p.1 < r.x + r.w) &&
  decide (r.y ≤ p.2) && decide (p.2 < r.y + r.h)

/-! ## components/@builtins/utils/zoom.py : coordinate transforms -/

/-- Constant MIN_ZOOM of components/@builtins/utils/zoom.py. -/
def MIN_ZOOM : ℚ := 1/2

/-- Constant MAX_ZOOM of components/@builtins/utils/zoom.py. -/
def MAX_ZOOM : ℚ := 2

/-- Embedding of simple_screen_to_canvas: screen space to canvas (world)
space, (screen_pos - offset) / zoom componentwise. -/
def simple_screen_to_canvas (screen_pos : Vec2) (zoom : ℚ) (offset : Vec2) : Vec2 :=
  ⟨(screen_pos.x - offset.x) / zoom, (screen_pos.y - offset.y) / zoom⟩

/-- Embedding of simple_canvas_to_screen: canvas (world) space to screen
space, canvas_pos * zoom + offset componentwise. -/
def simple_canvas_to_screen (canvas_pos : Vec2) (zoom : ℚ) (offset : Vec2) : Vec2 :=
  ⟨canvas_pos.x * zoom + offset.x, canvas_pos.y * zoom + offset.y⟩

/-! ## The shared tool context

The Python host builds one mutable dictionary (shared_tool_context) that every
tool and pipeline stage reads and writes.  We model it as one record; fields
that no claim touches (draw_color, current_hsv, draw_size, eraser_size) are
omitted.  The screen object is represented by its width and height, which is
all the embedded code reads from it. -/

/-- The shared tool context dictionary of src/surfaces/projects/canvas.py,
parameterized by the type of the drawing surface. -/
structure Context (α : Type) where
  screen_width : ℤ
  screen_height : ℤ
  active_tool_id : String
  is_drawing : Bool
  menu_open : Option String
  click_on_ui : Bool
  mouse_pos : ℤ × ℤ
  toolbar_current_y : ℤ
  drawing_surface : α
  zoom_level : ℚ
  pan_offset : Vec2
  canvas_mouse_pos : Vec2
  is_panning : Bool
  pan_start_pos : ℤ × ℤ
  pan_start_offset : Vec2
  previous_tool_id : String
deriving DecidableEq, Repr

/-! ## libs/common/components/Sliders/Solid.py -/

/-- The mutable state of the Slider component: its outer rect, value range,
current value and drag flag.  The track rect shares x and width with the
outer rect (as maintained by update_pos), so it is not stored separately;
knob_x is render-only state and is omitted. -/
structure Slider where
  rect : Rect
  min_val : ℚ
  max_val : ℚ
  value : ℚ
  is_dragging : Bool
deriving DecidableEq, Repr

/-- Embedding of Slider.set_value: clamp into the min/max range. -/
def Slider.set_value (s : Slider) (v : ℚ) : Slider :=
  { s with value := max s.min_val (min s.max_val v) }

/-- Embedding of Slider._update_value_from_pos: map a mouse x coordinate on
the track back into the value range. -/
def Slider.update_value_from_pos (s : Slider) (mouse_x : ℤ) : Slider :=
  let clamped_x : ℤ := max s.rect.x (min mouse_x (s.rect.x + s.rect.w))
  let percent : ℚ := ((clamped_x : ℚ) - (s.rect.x : ℚ)) / (s.rect.w : ℚ)
  let percent : ℚ := max 0 (min 1 percent)
  { s with value := s.min_val + percent * (s.max_val - s.min_val) }

/-! ## Input events

A pygame event, restricted to the constructors the embedded dispatch code
branches on.  Keyboard modifier state (pygame.key.get_mods) is carried on the
key events. -/

/-- Keys that the embedded code tests for. -/
inductive Key where
  | space
  | zKey
  | yKey
  | eKey
  | zeroKey
  | equalsKey
  | minusKey
  | otherKey (code : ℕ)
deriving DecidableEq, Repr

/-- A pygame input event. -/
inductive Event where
  | mouseButtonDown (button : ℕ) (pos : ℤ × ℤ)
  | mouseButtonUp (button : ℕ) (pos : ℤ × ℤ)
  | mouseMotion (pos : ℤ × ℤ)
  | mouseWheel (y : ℤ)
  | keyDown (key : Key) (ctrl shift : Bool)
  | keyUp (key : Key) (ctrl shift : Bool)
  | quitEvent
  | openTimer
deriving DecidableEq, Repr

/-- Embedding of Slider.handle_event.  A mouse button down anywhere on the
slider rect starts a drag and moves the value; motion while dragging moves
the value; button up ends the drag. -/
def Slider.handle_event (s : Slider) (e : Event) : Slider × Bool :=
  match e with
  | .mouseButtonDown _ pos =>
      if s.rect.containsB pos then
        ({ s.update_value_from_pos pos.1 with is_dragging := true }, true)
      else (s, false)
  | .mouseButtonUp _ _ =>
      if s.is_dragging then ({ s with is_dragging := false }, true) else (s, false)
  | .mouseMotion pos =>
      if s.is_dragging then (s.update_value_from_pos pos.1, true) else (s, false)
  | _ => (s, false)

/-! ## components/@builtins/utils/zoom.py : the ZoomTool -/

/-- The mutable instance state of the ZoomTool utility: min/max zoom bounds
(set to the module constants at construction), the slider, and the
middle-mouse panning state. -/
structure ZoomTool where
  min_zoom : ℚ
  max_zoom : ℚ
  slider : Slider
  is_panning : Bool
  pan_start_pos : ℤ × ℤ
  pan_start_offset : Vec2
deriving DecidableEq, Repr

/-- Embedding of ZoomTool._set_zoom: clamp the requested zoom, compute the
world point under the pivot from the old camera state, install the new zoom,
and recompute the offset so that world point stays under the pivot; finally
sync the slider. -/
def ZoomTool._set_zoom (self : ZoomTool) (c : Context α) (new_zoom : ℚ)
    (pivot_pos : Vec2) : ZoomTool × Context α :=
  let new_zoom := max MIN_ZOOM (min MAX_ZOOM new_zoom)
  let current_zoom := c.zoom_level
  let current_offset := c.pan_offset
  let canvas_pivot := simple_screen_to_canvas pivot_pos current_zoom current_offset
  let new_offset : Vec2 :=
    ⟨pivot_pos.x - canvas_pivot.x * new_zoom, pivot_pos.y - canvas_pivot.y * new_zoom⟩
  ({ self with slider := self.slider.set_value new_zoom },
   { c with zoom_level := new_zoom, pan_offset := new_offset })

/-- Embedding of ZoomTool.apply_constraints: clamp zoom into the tool's
bounds; per axis, clamp the offset between (viewport - world*zoom) and 0, or
lock it to the centering value when the scaled world is smaller than the
viewport; finally recompute the canvas mouse position. -/
def ZoomTool.apply_constraints (self : ZoomTool) (c : Context α)
    (world_size : Vec2) : Context α :=
  let screen_width : ℚ := (c.screen_width : ℚ)
  let screen_height : ℚ := (c.screen_height : ℚ)
  let zoom := max self.min_zoom (min self.max_zoom c.zoom_level)
  let max_offset_x : ℚ := 0
  let min_offset_x : ℚ := screen_width - world_size.x * zoom
  let mm_x : ℚ × ℚ :=
    if max_offset_x < min_offset_x then
      let center_x := (screen_width - world_size.x * zoom) / 2
      (center_x, center_x)
    else (min_offset_x, max_offset_x)
  let max_offset_y : ℚ := 0
  let min_offset_y : ℚ := screen_height - world_size.y * zoom
  let mm_y : ℚ × ℚ :=
    if max_offset_y < min_offset_y then
      let center_y := (screen_height - world_size.y * zoom) / 2
      (center_y, center_y)
    else (min_offset_y, max_offset_y)
  let new_offset_x : ℚ := max mm_x.1 (min mm_x.2 c.pan_offset.x)
  let new_offset_y : ℚ := max mm_y.1 (min mm_y.2 c.pan_offset.y)
  let canvas_mouse_pos :=
    simple_screen_to_canvas (Vec2.ofPair c.mouse_pos) zoom ⟨new_offset_x, new_offset_y⟩
  { c with zoom_level := zoom, pan_offset := ⟨new_offset_x, new_offset_y⟩,
           canvas_mouse_pos := canvas_mouse_pos }

/-! ## src/surfaces/projects/canvas.py : global constants and layout -/

/-- World width constant of src/surfaces/projects/canvas.py. -/
def WORLD_WIDTH : ℤ := 8000

/-- World height constant of src/surfaces/projects/canvas.py. -/
def WORLD_HEIGHT : ℤ := 6000

/-- Top bar height constant. -/
def TOP_BAR_HEIGHT : ℤ := 40

/-- Toolbar height constant. -/
def TOOLBAR_HEIGHT : ℤ := 80

/-- History menu width constant. -/
def HISTORY_MENU_WIDTH : ℤ := 300

/-- History menu padding constant. -/
def HISTORY_MENU_PADDING : ℤ := 5

/-- History item height constant. -/
def HISTORY_ITEM_HEIGHT : ℤ := 25

/-- Maximum number of history items shown at once in the history menu. -/
def MAX_VISIBLE_HISTORY_ITEMS : ℕ := 10

/-- History stack bound, defined next to the initial history in surface(). -/
def MAX_HISTORY_SIZE : ℕ := 30

/-- Python floor division on integers. -/
def pydiv (a b : ℤ) : ℤ := Int.fdiv a b

/-! ## Host parameters

The surface() function of projects/canvas.py closes over the screen, the
loaded tool plugins and the tkinter file dialogs.  These become parameters of
the model: tool handle_event methods are opaque callables to the host (they
are dynamically loaded plugins), and each file-dialog interaction is an
external input. -/

/-- A loaded drawing/context tool as the host sees it: its registry id, its
toolbar button rect, and its handle_event callable. -/
structure ToolEntry (α : Type) where
  registryId : String
  button_rect : Rect
  handle : Context α → Event → Context α × Bool

/-- The camera methods injected by utility tools into the
injected_* placeholder cells of surface(). -/
structure Injected (α : Type) where
  set_zoom : Context α → ℚ → Vec2 → Context α
  apply_constraints : Context α → Context α
  screen_to_canvas : Context α → Vec2 → Vec2
  canvas_to_screen : Context α → Vec2 → Vec2

/-- Environment of one canvas session: screen size, the blank surface colour
used by fill("White"), outcomes of the tkinter file dialogs, the injected
camera methods, and the loaded plugins. -/
structure HostParams (α : Type) where
  screen_width : ℤ
  screen_height : ℤ
  white : α
  openResult : Option (α × String)
  saveResult : Bool
  savePath : String
  injected : Injected α
  utilities : List (Context α → Event → Context α × Bool)
  tools : List (ToolEntry α)
  toolById : String → Option (Context α → Event → Context α × Bool)
  hand_tool_id : Option String

/-- The nonlocal state of surface(): the shared context plus the dialog,
dirty-flag, project-path and history variables. -/
structure HostState (α : Type) where
  ctx : Context α
  dialog_state : Option String
  dialog_pending_action : Option String
  dialog_buttons : List (String × Rect)
  running : Bool
  is_dirty : Bool
  current_project_path : Option String
  history : List (α × String)
  history_index : ℕ
  history_scroll_offset : ℕ
deriving DecidableEq, Repr

/-! ## Static layout of the host UI -/

/-- Rect of the File button in the top bar. -/
def file_btn_rect : Rect := ⟨0, 0, 100, TOP_BAR_HEIGHT⟩

/-- Rect of the History button in the top bar (placed at file_btn.rect.right). -/
def history_btn_rect : Rect := ⟨100, 0, 100, TOP_BAR_HEIGHT⟩

/-- Rect of the top bar. -/
def top_bar_rect (P : HostParams α) : Rect := ⟨0, 0, P.screen_width, TOP_BAR_HEIGHT⟩

/-- Visible resting y of the toolbar. -/
def toolbar_visible_y (P : HostParams α) : ℤ := P.screen_height - TOOLBAR_HEIGHT

/-- Rect of the toolbar (built once at startup at the visible position). -/
def toolbar_rect (P : HostParams α) : Rect :=
  ⟨0, toolbar_visible_y P, P.screen_width, TOOLBAR_HEIGHT⟩

/-- Placeholder rect of the history dropdown menu. -/
def history_placeholder_rect : Rect :=
  ⟨history_btn_rect.x, TOP_BAR_HEIGHT, HISTORY_MENU_WIDTH,
   HISTORY_ITEM_HEIGHT * (MAX_VISIBLE_HISTORY_ITEMS : ℤ) + HISTORY_MENU_PADDING * 2⟩

/-- The modal dialog rect: 500 by 200, centered on the screen. -/
def dialog_rect (P : HostParams α) : Rect :=
  ⟨pydiv P.screen_width 2 - pydiv 500 2, pydiv P.screen_height 2 - pydiv 200 2, 500, 200⟩

/-- Buttons of the confirm_action dialog as laid out by set_dialog:
Save, Don't Save and Cancel in a row above the dialog's bottom edge. -/
def confirm_dialog_buttons (P : HostParams α) : List (String × Rect) :=
  let r := dialog_rect P
  let btn_w : ℤ := 140
  let btn_h : ℤ := 40
  let btn_gap : ℤ := 10
  let total_w := btn_w * 3 + btn_gap * 2
  let centerx := r.x + pydiv r.w 2
  let start_x := centerx - pydiv total_w 2
  let btn_y := r.y + r.h - btn_h - 20
  [("save", ⟨start_x, btn_y, btn_w, btn_h⟩),
   ("dont_save", ⟨start_x + btn_w + btn_gap, btn_y, btn_w, btn_h⟩),
   ("cancel", ⟨start_x + btn_w * 2 + btn_gap * 2, btn_y, btn_w, btn_h⟩)]

/-- Embedding of the nested set_dialog helper of surface(). -/
def set_dialog (P : HostParams α) (s : HostState α)
    (state pending_action : Option String) : HostState α :=
  let s := { s with dialog_state := state, dialog_pending_action := pending_action }
  if state = some "confirm_action" then
    { s with dialog_buttons := confirm_dialog_buttons P }
  else s

/-! ## src/surfaces/projects/canvas.py : the history engine -/

/-- Embedding of the nested set_history_state helper: jump to a history
index, loading a copy of the stored snapshot as the live surface and marking
the session dirty.  (All call sites pass an in-range index; out of range the
model keeps the current surface where Python would raise IndexError.) -/
def set_history_state (s : HostState α) (index : ℕ) : HostState α :=
  let surf := ((s.history.get? index).map Prod.fst).getD s.ctx.drawing_surface
  { s with history_index := index,
           ctx := { s.ctx with drawing_surface := surf },
           is_dirty := true }

/-- Embedding of the nested add_history helper: drop the redo tail if an undo
happened, evict the oldest entry if the stack is at MAX_HISTORY_SIZE, append
a copy of the live surface, point the index at the new entry, mark dirty and
scroll the history menu to the bottom. -/
def add_history (s : HostState α) (action_name : String) : HostState α :=
  let history :=
    if s.history_index < s.history.length - 1 then
      s.history.take (s.history_index + 1)
    else s.history
  let history :=
    if MAX_HISTORY_SIZE ≤ history.length then history.drop 1 else history
  let history := history ++ [(s.ctx.drawing_surface, action_name)]
  { s with history := history,
           history_index := history.length - 1,
           is_dirty := true,
           history_scroll_offset := history.length - MAX_VISIBLE_HISTORY_ITEMS }

/-- Embedding of the nested undo helper. -/
def undo (s : HostState α) : HostState α :=
  if 0 < s.history_index then set_history_state s (s.history_index - 1) else s

/-- Embedding of the nested redo helper. -/
def redo (s : HostState α) : HostState α :=
  if s.history_index < s.history.length - 1 then
    set_history_state s (s.history_index + 1)
  else s

/-! ## src/surfaces/projects/canvas.py : file operations

The tkinter dialogs and pickle round trips are external inputs: saveResult
says whether the user picked a path and the write succeeded, openResult is
the decoded project (surface and chosen path) or none when the dialog was
cancelled or the load failed. -/

/-- Embedding of the nested save_as_vecbo helper. -/
def save_as_vecbo (P : HostParams α) (s : HostState α) : HostState α × Bool :=
  if P.saveResult then
    ({ s with current_project_path := some P.savePath, is_dirty := false }, true)
  else (s, false)

/-- Embedding of the nested save_vecbo helper. -/
def save_vecbo (P : HostParams α) (s : HostState α) : HostState α × Bool :=
  match s.current_project_path with
  | none => save_as_vecbo P s
  | some _ => if P.saveResult then ({ s with is_dirty := false }, true) else (s, false)

/-- Embedding of the nested open_file helper of projects/canvas.py: on a
successful load the decoded surface is installed as-is as the drawing
surface (at whatever size it was stored with), the history is reset to a
single Opened entry, and the camera is re-targeted at the screen center. -/
def open_file (P : HostParams α) (s : HostState α) : HostState α × Bool :=
  match P.openResult with
  | none => (s, false)
  | some (new_surf, file_path) =>
      let s := { s with
        ctx := { s.ctx with drawing_surface := new_surf },
        current_project_path := some file_path,
        is_dirty := false,
        history := [(new_surf, "Opened: " ++ file_path)],
        history_index := 0 }
      let center : Vec2 := Vec2.ofPair (pydiv P.screen_width 2, pydiv P.screen_height 2)
      let ctx := P.injected.set_zoom s.ctx s.ctx.zoom_level center
      ({ s with ctx := ctx }, true)

/-- Embedding of the nested clear_canvas helper: fill the surface white,
reset the history to a single Initial entry, clear the dirty flag and the
project path, and re-target the camera at the screen center. -/
def clear_canvas (P : HostParams α) (s : HostState α) : HostState α :=
  let s := { s with ctx := { s.ctx with drawing_surface := P.white } }
  let s := { s with history := ([] : List (α × String)) }
  let s := add_history s "Initial"
  let s := { s with is_dirty := false, current_project_path := none }
  let center : Vec2 := Vec2.ofPair (pydiv P.screen_width 2, pydiv P.screen_height 2)
  { s with ctx := P.injected.set_zoom s.ctx s.ctx.zoom_level center }

/-! ## src/surfaces/projects/canvas.py : the modal dialog stage -/

/-- First dialog button whose rect contains the click position, if any. -/
def find_clicked_dialog_button (buttons : List (String × Rect)) (pos : ℤ × ℤ) :
    Option String :=
  match buttons with
  | [] => none
  | (name, r) :: rest =>
      if r.containsB pos then some name else find_clicked_dialog_button rest pos

/-- The pending-action branch shared by the Don't Save path and the
successful-save path of the dialog stage: run new_canvas, open_file or exit. -/
def run_pending_action (P : HostParams α) (s : HostState α) : HostState α :=
  match s.dialog_pending_action with
  | some "new_canvas" => clear_canvas P s
  | some "open_file" => (open_file P s).1
  | some "exit" => { s with running := false }
  | _ => s

/-- Embedding of the per-event body of the dialog stage (the first event loop
of the main loop): only left mouse button downs are inspected; a hit on a
dialog button runs its action; the event is consumed either way. -/
def dialog_handle_event (P : HostParams α) (s : HostState α) (e : Event) :
    HostState α :=
  match e with
  | .mouseButtonDown 1 pos =>
      let action_taken := find_clicked_dialog_button s.dialog_buttons pos
      let s :=
        match action_taken with
        | some "cancel" =>
            { s with dialog_state := none, dialog_pending_action := none }
        | some "dont_save" =>
            run_pending_action P { s with dialog_state := none }
        | some "save" =>
            let s1 := (save_vecbo P s).1
            if s1.is_dirty then s1
            else run_pending_action P { s1 with dialog_state := none }
        | some "export" => s
        | _ => s
      { s with ctx := { s.ctx with click_on_ui := true } }
  | _ => s

/-! ## src/surfaces/projects/canvas.py : the input dispatch pipeline -/

/-- What the pipeline did with one event: whether it was removed from the
frame's event list (consumed), and whether the active tool's handle_event was
invoked for it. -/
structure DispatchLog where
  consumed : Bool
  activeToolSaw : Bool
deriving DecidableEq, Repr

/-- The utility-tool stage: each utility tool in order gets the event until
one consumes it (for-loop with break). -/
def util_fold (handlers : List (Context α → Event → Context α × Bool))
    (c : Context α) (e : Event) : Context α × Bool :=
  match handlers with
  | [] => (c, false)
  | h :: rest =>
      let r := h c e
      if r.2 then (r.1, true) else util_fold rest r.1 e

/-- Texts of the file menu entries, in order; Save is only present when a
project path is set. -/
def file_menu_texts (path : Option String) : List String :=
  ["New Whiteboard", "Open From..."] ++
  (if path.isSome then ["Save"] else []) ++
  ["Save as... (.vecbo)", "Export as... (.png)", "Back to Main Menu"]

/-- Rects of the file menu entries: a column of 300 by 40 buttons starting at
the bottom of the File button. -/
def file_menu_entries (path : Option String) : List (String × Rect) :=
  (file_menu_texts path).enum.map fun p =>
    (p.2, ⟨file_btn_rect.x, file_btn_rect.y + file_btn_rect.h + 40 * (p.1 : ℤ), 300, 40⟩)

/-- The file menu hot zone: the File button rect and all entry rects. -/
def file_menu_hot_zone (path : Option String) : List Rect :=
  file_btn_rect :: (file_menu_entries path).map Prod.snd

/-- The history menu hot zone: the History button rect and the dropdown
placeholder rect. -/
def history_menu_hot_zone : List Rect := [history_btn_rect, history_placeholder_rect]

/-- First file menu entry whose rect contains the mouse position. -/
def find_file_menu_hit (path : Option String) (pos : ℤ × ℤ) : Option String :=
  ((file_menu_entries path).find? fun tr => tr.2.containsB pos).map Prod.fst

/-- Action run by a click on a file menu entry, by entry text. -/
def run_file_menu_action (P : HostParams α) (s : HostState α) (text : String) :
    HostState α :=
  if text = "New Whiteboard" then
    if s.is_dirty then set_dialog P s (some "confirm_action") (some "new_canvas")
    else clear_canvas P s
  else if text = "Open From..." then
    if s.is_dirty then set_dialog P s (some "confirm_action") (some "open_file")
    else (open_file P s).1
  else if text = "Save" then (save_vecbo P s).1
  else if text = "Save as... (.vecbo)" then (save_as_vecbo P s).1
  else if text = "Export as... (.png)" then s
  else if text = "Back to Main Menu" then
    if s.is_dirty then set_dialog P s (some "confirm_action") (some "exit")
    else { s with running := false }
  else s

/-- Inner rect of the history dropdown used for item hit testing
(placeholder inflated by (-4, -2 * HISTORY_MENU_PADDING)). -/
def history_clip_rect : Rect :=
  ⟨history_placeholder_rect.x + 2, history_placeholder_rect.y + HISTORY_MENU_PADDING,
   history_placeholder_rect.w - 4,
   history_placeholder_rect.h - 2 * HISTORY_MENU_PADDING⟩

/-- Rect of the i-th visible history item. -/
def history_item_rect (i : ℕ) : Rect :=
  ⟨history_clip_rect.x, history_clip_rect.y + (i : ℤ) * HISTORY_ITEM_HEIGHT,
   history_clip_rect.w, HISTORY_ITEM_HEIGHT⟩

/-- First visible history index whose item rect contains the mouse position
(the loop breaks at the end of the stack). -/
def find_history_item_hit (scroll len : ℕ) (pos : ℤ × ℤ) : Option ℕ :=
  (List.range MAX_VISIBLE_HISTORY_ITEMS).find?
    (fun i => scroll + i < len && (history_item_rect i).containsB pos)
  |>.map (scroll + ·)

/-- The scroll-target stage of the pipeline: a mouse wheel event scrolls the
history menu when it is open under the cursor, or is swallowed over the top
bar or the toolbar; anything else falls through to the camera. -/
def wheel_stage (P : HostParams α) (s : HostState α) (e : Event) : HostState α :=
  match e with
  | .mouseWheel y =>
      if s.ctx.menu_open = some "history" ∧
         history_placeholder_rect.containsB s.ctx.mouse_pos then
        let scroll :=
          if 0 < y then s.history_scroll_offset - 1
          else if y < 0 then
            min (s.history.length - MAX_VISIBLE_HISTORY_ITEMS) (s.history_scroll_offset + 1)
          else s.history_scroll_offset
        { s with history_scroll_offset := scroll,
                 ctx := { s.ctx with click_on_ui := true } }
      else if (top_bar_rect P).containsB s.ctx.mouse_pos ∨
              (toolbar_rect P).containsB s.ctx.mouse_pos then
        { s with ctx := { s.ctx with click_on_ui := true } }
      else s
  | _ => s

/-- The menu mouseover-switching stage: while a menu is open, hovering the
other top-bar button switches to it. -/
def hover_stage (s : HostState α) (e : Event) : HostState α :=
  match e with
  | .mouseMotion _ =>
      if s.ctx.menu_open ≠ none then
        if file_btn_rect.containsB s.ctx.mouse_pos ∧ s.ctx.menu_open ≠ some "file" then
          { s with ctx := { s.ctx with menu_open := some "file", click_on_ui := true } }
        else if history_btn_rect.containsB s.ctx.mouse_pos ∧
                s.ctx.menu_open ≠ some "history" then
          { s with ctx := { s.ctx with menu_open := some "history", click_on_ui := true } }
        else s
      else s
  | _ => s

/-- The non-spacebar keyboard shortcuts: undo/redo and export. -/
def other_key_shortcuts (s : HostState α) (k : Key) (ctrl shift : Bool) :
    HostState α :=
  if k = .zKey then (if ctrl then (if shift then redo s else undo s) else s)
  else if k = .yKey then (if ctrl ∧ ¬shift then redo s else s)
  else s

/-- The keyboard-shortcut stage.  A space key down while the hand tool is not
active saves the active tool and switches to the hand tool; a space key up
restores the saved tool (and is always consumed). -/
def key_stage (P : HostParams α) (s : HostState α) (e : Event) : HostState α :=
  match e with
  | .keyDown k ctrl shift =>
      match P.hand_tool_id with
      | some hid =>
          if k = .space then
            if s.ctx.active_tool_id ≠ hid then
              { s with ctx := { s.ctx with
                  previous_tool_id := s.ctx.active_tool_id,
                  active_tool_id := hid,
                  click_on_ui := true } }
            else s
          else other_key_shortcuts s k ctrl shift
      | none => other_key_shortcuts s k ctrl shift
  | .keyUp k _ _ =>
      match P.hand_tool_id with
      | some hid =>
          if k = .space then
            let s :=
              if s.ctx.active_tool_id = hid then
                { s with ctx := { s.ctx with
                    active_tool_id := s.ctx.previous_tool_id,
                    is_panning := false } }
              else s
            { s with ctx := { s.ctx with click_on_ui := true } }
          else s
      | none => s
  | _ => s

/-- The top-bar and menu mouse-down stage: File/History button toggles, file
menu item clicks, and history menu item clicks.  The Bool result is true
when the stage consumed the event (hit a continue in the source). -/
def menu_mousedown_stage (P : HostParams α) (s : HostState α) (e : Event) :
    HostState α × Bool :=
  match e with
  | .mouseButtonDown 1 pos =>
      let s :=
        if file_btn_rect.containsB pos then
          { s with ctx := { s.ctx with
              menu_open := if s.ctx.menu_open ≠ some "file" then some "file" else none,
              click_on_ui := true } }
        else if history_btn_rect.containsB pos then
          { s with ctx := { s.ctx with
              menu_open := if s.ctx.menu_open ≠ some "history" then some "history" else none,
              click_on_ui := true } }
        else s
      if s.ctx.click_on_ui then (s, true)
      else if s.ctx.menu_open = some "file" then
        match find_file_menu_hit s.current_project_path s.ctx.mouse_pos with
        | some text =>
            let s := run_file_menu_action P s text
            ({ s with ctx := { s.ctx with menu_open := none, click_on_ui := true } }, true)
        | none =>
            if (file_menu_hot_zone s.current_project_path).any
                 (fun r => r.containsB s.ctx.mouse_pos) then
              ({ s with ctx := { s.ctx with click_on_ui := true } }, true)
            else (s, false)
      else if s.ctx.menu_open = some "history" then
        if history_placeholder_rect.containsB s.ctx.mouse_pos then
          let s := { s with ctx := { s.ctx with click_on_ui := true } }
          match find_history_item_hit s.history_scroll_offset s.history.length
                  s.ctx.mouse_pos with
          | some i =>
              let s := set_history_state s i
              ({ s with ctx := { s.ctx with menu_open := none } }, false)
          | none => (s, false)
        else (s, false)
      else (s, false)
  | _ => (s, false)

/-- Embedding of the per-event body of the normal (no dialog open) event loop
of surface(): the strictly ordered dispatch pipeline.  Returns the updated
state and a log saying whether the event was consumed and whether the active
tool's handle_event was invoked for it. -/
def dispatchEvent (P : HostParams α) (s : HostState α) (e : Event) :
    HostState α × DispatchLog :=
  -- deferred open-file timer event
  if e = .openTimer then ((open_file P s).1, ⟨true, false⟩)
  else
  -- window close
  let s :=
    if e = .quitEvent then
      if s.is_dirty then
        let s := set_dialog P s (some "confirm_action") (some "exit")
        { s with ctx := { s.ctx with click_on_ui := true } }
      else { s with running := false }
    else s
  -- a previous handler this frame consumed the event
  if s.ctx.click_on_ui then (s, ⟨true, false⟩)
  else
  -- mouse wheel over the history menu or UI chrome
  let s := wheel_stage P s e
  if s.ctx.click_on_ui then (s, ⟨true, false⟩)
  else
  -- utility tools get first refusal
  let u := util_fold P.utilities s.ctx e
  let s := { s with ctx := if u.2 then { u.1 with click_on_ui := true } else u.1 }
  if s.ctx.click_on_ui then (s, ⟨true, false⟩)
  else
  -- menu mouseover switching
  let s := hover_stage s e
  if s.ctx.click_on_ui then (s, ⟨true, false⟩)
  else
  -- keyboard shortcuts
  let s := key_stage P s e
  if s.ctx.click_on_ui then (s, ⟨true, false⟩)
  else
  -- top-bar buttons and open menus
  let md := menu_mousedown_stage P s e
  if md.2 then (md.1, ⟨true, false⟩)
  else
  let s := md.1
  -- tool-specific popup menu
  match (match s.ctx.menu_open with
         | some mid => P.toolById mid
         | none => none) with
  | some h =>
      let r := h s.ctx e
      let c := if r.2 then { r.1 with click_on_ui := true } else r.1
      ({ s with ctx := c }, ⟨true, false⟩)
  | none =>
  -- toolbar buttons
  let tb : HostState α × Bool :=
    match e with
    | .mouseButtonDown 1 pos =>
        match P.tools.find? (fun t => t.button_rect.containsB pos) with
        | some t =>
            let r := t.handle s.ctx e
            if r.2 then ({ s with ctx := { r.1 with click_on_ui := true } }, true)
            else ({ s with ctx := r.1 }, false)
        | none => (s, false)
    | _ => (s, false)
  if tb.2 then (tb.1, ⟨true, false⟩)
  else
  let s := tb.1
  -- click outside an open menu closes it
  let s :=
    match e with
    | .mouseButtonDown 1 _ =>
        match s.ctx.menu_open with
        | some m =>
            if m = "file" ∨ m = "history" then
              let hot_zone :=
                if m = "file" then file_menu_hot_zone s.current_project_path
                else history_menu_hot_zone
              if hot_zone.any (fun r => r.containsB s.ctx.mouse_pos) then s
              else { s with ctx := { s.ctx with menu_open := none, click_on_ui := true } }
            else s
        | none => s
    | _ => s
  if s.ctx.click_on_ui then (s, ⟨true, false⟩)
  else
  -- whatever remains goes to the active tool
  match P.toolById s.ctx.active_tool_id with
  | some h =>
      let is_space_up := match e with | .keyUp .space _ _ => true | _ => false
      if is_space_up then (s, ⟨false, false⟩)
      else
        let r := h s.ctx e
        let s := { s with ctx := r.1 }
        if r.2 then (s, ⟨true, true⟩)
        else if s.ctx.click_on_ui then (s, ⟨true, true⟩)
        else (s, ⟨false, true⟩)
  | none => (s, ⟨false, false⟩)

/-- Embedding of one iteration of the main loop's event handling: reset
click_on_ui for the frame, then either let an open dialog consume every
event, or run each event through the dispatch pipeline.  The second
component is the list of events handled by the normal (post-dialog)
pipeline this frame. -/
def processFrame (P : HostParams α) (s : HostState α) (events : List Event) :
    HostState α × List Event :=
  let s := { s with ctx := { s.ctx with click_on_ui := false } }
  if s.dialog_state.isSome then
    let s := events.foldl (fun s e => dialog_handle_event P s e) s
    ({ s with ctx := { s.ctx with click_on_ui := true } }, [])
  else
    (events.foldl (fun s e => (dispatchEvent P s e).1) s, events)

/-! ## components/@builtins/utils/zoom.py : ZoomTool.handle_event -/

/-- Embedding of ZoomTool.handle_event: the zoom slider, middle-mouse
panning, wheel zoom away from UI chrome, and Ctrl/Cmd keyboard zoom.  The
ctrl flag of a key event models pygame.key.get_mods() containing KMOD_CTRL
or KMOD_META. -/
def ZoomTool.handle_event (self : ZoomTool) (c : Context α) (e : Event) :
    ZoomTool × Context α × Bool :=
  let mouse_pos := c.mouse_pos
  let sl := self.slider.handle_event e
  let self := { self with slider := sl.1 }
  if sl.2 then
    let new_zoom := self.slider.value
    let screen_center : Vec2 := ⟨(c.screen_width : ℚ) / 2, (c.screen_height : ℚ) / 2⟩
    let r := ZoomTool._set_zoom self c new_zoom screen_center
    (r.1, r.2, true)
  else
    match e with
    | .mouseButtonDown b _ =>
        if b = 2 then
          ({ self with is_panning := true, pan_start_pos := mouse_pos,
                       pan_start_offset := c.pan_offset },
           { c with is_panning := true, pan_start_offset := c.pan_offset }, true)
        else (self, c, false)
    | .mouseButtonUp b _ =>
        if b = 2 then
          ({ self with is_panning := false }, { c with is_panning := false }, true)
        else (self, c, false)
    | .mouseMotion _ =>
        if self.is_panning then
          let delta_x : ℚ := (mouse_pos.1 : ℚ) - (self.pan_start_pos.1 : ℚ)
          let delta_y : ℚ := (mouse_pos.2 : ℚ) - (self.pan_start_pos.2 : ℚ)
          (self,
           { c with pan_offset := ⟨self.pan_start_offset.x + delta_x,
                                   self.pan_start_offset.y + delta_y⟩ }, true)
        else (self, c, false)
    | .mouseWheel y =>
        let is_over_ui :=
          (Rect.mk 0 0 c.screen_width 40).containsB mouse_pos ||
          (Rect.mk 0 c.toolbar_current_y c.screen_width 80).containsB mouse_pos
        if is_over_ui then (self, c, false)
        else if 0 < y then
          let r := ZoomTool._set_zoom self c (min MAX_ZOOM (c.zoom_level + 1/10))
                     (Vec2.ofPair mouse_pos)
          (r.1, r.2, true)
        else if y < 0 then
          let r := ZoomTool._set_zoom self c (max MIN_ZOOM (c.zoom_level - 1/10))
                     (Vec2.ofPair mouse_pos)
          (r.1, r.2, true)
        else (self, c, true)
    | .keyDown k ctrl _ =>
        if ctrl then
          if k = .zeroKey then
            let r := ZoomTool._set_zoom self c 1 (Vec2.ofPair mouse_pos)
            (r.1, r.2, true)
          else if k = .equalsKey then
            let r := ZoomTool._set_zoom self c (min MAX_ZOOM (c.zoom_level + 1/20))
                       (Vec2.ofPair mouse_pos)
            (r.1, r.2, true)
          else if k = .minusKey then
            let r := ZoomTool._set_zoom self c (max MIN_ZOOM (c.zoom_level - 1/20))
                       (Vec2.ofPair mouse_pos)
            (r.1, r.2, true)
          else (self, c, false)
        else (self, c, false)
    | _ => (self, c, false)

/-! ## components/@builtins/tools/Hand/__init__.py -/

/-- The HandTool instance: its registry id and its toolbar button rect. -/
structure HandTool where
  registryId : String
  button_rect : Rect

/-- Embedding of HandTool.handle_event: a click on its toolbar button
activates it; when it is the active tool, mouse button 1 or 2 starts
panning on the canvas, motion pans and button up stops. -/
def HandTool.handle_event (self : HandTool) (c : Context α) (e : Event) :
    Context α × Bool :=
  let activated : Option (Context α × Bool) :=
    match e with
    | .mouseButtonDown 1 pos =>
        if self.button_rect.containsB pos then
          some ({ c with active_tool_id := self.registryId, menu_open := none }, true)
        else none
    | _ => none
  match activated with
  | some r => r
  | none =>
    if c.active_tool_id ≠ self.registryId then (c, false)
    else
      match e with
      | .mouseButtonDown b _ =>
          if (b = 1 ∨ b = 2) ∧ ¬c.click_on_ui then
            ({ c with is_panning := true, pan_start_pos := c.mouse_pos,
                      pan_start_offset := c.pan_offset, is_drawing := true }, true)
          else (c, false)
      | .mouseButtonUp b _ =>
          if (b = 1 ∨ b = 2) ∧ c.is_panning then
            ({ c with is_panning := false, is_drawing := false }, true)
          else (c, false)
      | .mouseMotion _ =>
          if c.is_panning then
            let delta_x : ℚ := (c.mouse_pos.1 : ℚ) - (c.pan_start_pos.1 : ℚ)
            let delta_y : ℚ := (c.mouse_pos.2 : ℚ) - (c.pan_start_pos.2 : ℚ)
            ({ c with pan_offset := ⟨c.pan_start_offset.x + delta_x,
                                     c.pan_start_offset.y + delta_y⟩ }, true)
          else (c, false)
      | _ => (c, false)

/-- The ZoomTool as a host-side utility handler (the host only sees the
shared context effect of handle_event; the instance state is captured in
the closure). -/
def zoom_util_handler (zt : ZoomTool) : Context α → Event → Context α × Bool :=
  fun c e => (ZoomTool.handle_event zt c e).2

/-- The HandTool as a host-side handler. -/
def hand_util_handler (ht : HandTool) : Context α → Event → Context α × Bool :=
  fun c e => HandTool.handle_event ht c e

/-- The injection record a loaded ZoomTool provides, mirroring
ZoomTool.INJECT_METHODS composed with the _injection_targets dispatchers of
surface(): set_zoom and apply_constraints call into the instance, the two
coordinate conversions read zoom and offset from the shared context. -/
def zoom_injected (zt : ZoomTool) : Injected α :=
  { set_zoom := fun c z piv => (ZoomTool._set_zoom zt c z piv).2,
    apply_constraints := fun c =>
      ZoomTool.apply_constraints zt c ⟨(WORLD_WIDTH : ℚ), (WORLD_HEIGHT : ℚ)⟩,
    screen_to_canvas := fun c p => simple_screen_to_canvas p c.zoom_level c.pan_offset,
    canvas_to_screen := fun c p => simple_canvas_to_screen p c.zoom_level c.pan_offset }

/-! ## src/surfaces/projects/canvas.py : startup injection validation -/

/-- A loaded plugin as the instantiation loop of surface() sees it: the
declared type from its config, whether its class has an INJECT_METHODS
attribute, and the injection names listed in its config. -/
structure PluginConfig where
  registryId : String
  ptype : String
  hasInjectMethods : Bool
  injected_methods : List String
deriving DecidableEq, Repr

/-- Which injection placeholder cells have been bound (a false field models
a cell still holding None). -/
structure InjSlots where
  screen_to_canvas : Bool
  canvas_to_screen : Bool
  set_zoom : Bool
  apply_constraints : Bool
  hand_tool_id : Bool
deriving DecidableEq, Repr

/-- All placeholder cells start unbound. -/
def empty_slots : InjSlots := ⟨false, false, false, false, false⟩

/-- Binding one declared injection name to its placeholder cell
(_injection_targets lookup; unknown names are ignored). -/
def apply_injection (slots : InjSlots) (name : String) : InjSlots :=
  if name = "hand_tool_id" then { slots with hand_tool_id := true }
  else if name = "set_zoom" then { slots with set_zoom := true }
  else if name = "apply_constraints" then { slots with apply_constraints := true }
  else if name = "screen_to_canvas" then { slots with screen_to_canvas := true }
  else if name = "canvas_to_screen" then { slots with canvas_to_screen := true }
  else slots

/-- Injection performed while instantiating one plugin: only utility tools
whose class has INJECT_METHODS contribute. -/
def load_plugin_injections (slots : InjSlots) (p : PluginConfig) : InjSlots :=
  if p.ptype = "utility_tool" ∧ p.hasInjectMethods then
    p.injected_methods.foldl apply_injection slots
  else slots

/-- The slots bound after instantiating all loaded plugins in order. -/
def instantiate_plugins (plugins : List PluginConfig) : InjSlots :=
  plugins.foldl load_plugin_injections empty_slots

/-- The injection validation between tool loading and the main loop: raise
RuntimeError when any of the four camera cells is still None. -/
def injection_validation (slots : InjSlots) : Except String Unit :=
  if slots.screen_to_canvas = false ∨ slots.canvas_to_screen = false ∨
     slots.set_zoom = false ∨ slots.apply_constraints = false then
    Except.error "FATAL ERROR: Essential Canvas Systems (Coordinate Math, Camera Control) failed to inject. A utility tool must provide ALL of these functions."
  else Except.ok ()

/-- Canvas startup up to the injection validation: instantiate the plugins,
then validate the four camera cells. -/
def canvas_startup_check (plugins : List PluginConfig) : Except String Unit :=
  injection_validation (instantiate_plugins plugins)

/-! ## Surfaces with pixels, and the boards/canvas.py size fix -/

/-- A pygame.Surface modelled as an integer size and a total colour
function over integer pixel coordinates. -/
structure PSurface where
  w : ℤ
  h : ℤ
  pix : ℤ → ℤ → ℕ

/-- The colour written by fill("White"). -/
def WHITE : ℕ := 16777215

/-- A blank white world-sized surface. -/
def blank_world_surface : PSurface :=
  ⟨WORLD_WIDTH, WORLD_HEIGHT, fun _ _ => WHITE⟩

/-- Embedding of the size-fixing branch of open_file in
src/surfaces/boards/canvas.py: when the loaded surface's size differs from
the world constants, create a fresh white world-sized surface and blit the
loaded surface centered onto it (rect obtained from
get_rect(center=(WORLD_WIDTH//2, WORLD_HEIGHT//2))); otherwise keep the
loaded surface. -/
def boards_open_file_surface (loaded : PSurface) : PSurface :=
  if (loaded.w, loaded.h) ≠ (WORLD_WIDTH, WORLD_HEIGHT) then
    let rx := pydiv WORLD_WIDTH 2 - pydiv loaded.w 2
    let ry := pydiv WORLD_HEIGHT 2 - pydiv loaded.h 2
    { w := WORLD_WIDTH, h := WORLD_HEIGHT,
      pix := fun x y =>
        if rx ≤ x ∧ x < rx + loaded.w ∧ ry ≤ y ∧ y < ry + loaded.h then
          loaded.pix (x - rx) (y - ry)
        else WHITE }
  else loaded

/-! # Theorems -/

/-! ## Shared helpers -/

theorem clamped_zoom_pos (z : ℚ) : 0 < max MIN_ZOOM (min MAX_ZOOM z) :=
  lt_of_lt_of_le (by norm_num [MIN_ZOOM]) (le_max_left _ _)

theorem zoom_in_range_ne_zero {z : ℚ} (h1 : MIN_ZOOM ≤ z) : z ≠ 0 :=
  ne_of_gt (lt_of_lt_of_le (by norm_num [MIN_ZOOM]) h1)

/-- A sample shared context over an arbitrary surface, with the startup
screen size and the startup camera (zoom 1, world centered). -/
def sample_ctx (a : α) : Context α where
  screen_width := 1668
  screen_height := 938
  active_tool_id := "none"
  is_drawing := false
  menu_open := none
  click_on_ui := false
  mouse_pos := (0, 0)
  toolbar_current_y := 858
  drawing_surface := a
  zoom_level := 1
  pan_offset := ⟨-3166, -2531⟩
  canvas_mouse_pos := ⟨0, 0⟩
  is_panning := false
  pan_start_pos := (0, 0)
  pan_start_offset := ⟨0, 0⟩
  previous_tool_id := "none"

/-- A sample ZoomTool instance as built by ZoomTool.__init__. -/
def sample_zoom_tool : ZoomTool where
  min_zoom := MIN_ZOOM
  max_zoom := MAX_ZOOM
  slider := { rect := ⟨0, 0, 260, 25⟩, min_val := MIN_ZOOM, max_val := MAX_ZOOM,
              value := 1, is_dragging := false }
  is_panning := false
  pan_start_pos := (0, 0)
  pan_start_offset := ⟨0, 0⟩

/-! ## C9 : the coordinate transforms are mutual inverses -/

/-- C9.  For every screen position, every zoom in [MIN_ZOOM, MAX_ZOOM] and
every offset, simple_canvas_to_screen inverts simple_screen_to_canvas
exactly (the rational model of the floating-point round trip). -/
theorem transform_roundtrip (p : Vec2) (zoom : ℚ) (offset : Vec2)
    (h1 : MIN_ZOOM ≤ zoom) (h2 : zoom ≤ MAX_ZOOM) :
    simple_canvas_to_screen (simple_screen_to_canvas p zoom offset) zoom offset = p := by
  have hz : zoom ≠ 0 := zoom_in_range_ne_zero h1
  simp only [simple_screen_to_canvas, simple_canvas_to_screen]
  cases p with
  | mk px py =>
      simp only [Vec2.mk.injEq]
      constructor <;> field_simp

/-- Witness for C9: the round trip evaluated at screen point (123, 45),
zoom 1/2 and offset (-3166, -2531). -/
theorem transform_roundtrip_witness :
    (MIN_ZOOM ≤ (1/2 : ℚ) ∧ (1/2 : ℚ) ≤ MAX_ZOOM) ∧
    simple_canvas_to_screen
      (simple_screen_to_canvas ⟨123, 45⟩ (1/2) ⟨-3166, -2531⟩) (1/2) ⟨-3166, -2531⟩ =
      ⟨123, 45⟩ :=
  ⟨⟨by norm_num [MIN_ZOOM], by norm_num [MAX_ZOOM]⟩,
   transform_roundtrip ⟨123, 45⟩ (1/2) ⟨-3166, -2531⟩
     (by norm_num [MIN_ZOOM]) (by norm_num [MAX_ZOOM])⟩

/-! ## C1 : zooming keeps the world point under the pivot fixed -/

/-- C1.  ZoomTool._set_zoom clamps the requested zoom into
[MIN_ZOOM, MAX_ZOOM], and the world point under the pivot is unchanged:
screen_to_canvas of the pivot under the new camera equals screen_to_canvas
of the pivot under the old camera, exactly over the rationals. -/
theorem zoom_pivot_fixed_point (self : ZoomTool) (c : Context α)
    (new_zoom : ℚ) (pivot : Vec2)
    (h1 : MIN_ZOOM ≤ c.zoom_level) (h2 : c.zoom_level ≤ MAX_ZOOM) :
    (ZoomTool._set_zoom self c new_zoom pivot).2.zoom_level =
      max MIN_ZOOM (min MAX_ZOOM new_zoom) ∧
    simple_screen_to_canvas pivot
        (ZoomTool._set_zoom self c new_zoom pivot).2.zoom_level
        (ZoomTool._set_zoom self c new_zoom pivot).2.pan_offset =
      simple_screen_to_canvas pivot c.zoom_level c.pan_offset := by
  have hz' : max MIN_ZOOM (min MAX_ZOOM new_zoom) ≠ 0 :=
    ne_of_gt (clamped_zoom_pos new_zoom)
  have hz0 : c.zoom_level ≠ 0 := zoom_in_range_ne_zero h1
  refine ⟨rfl, ?_⟩
  simp only [ZoomTool._set_zoom, simple_screen_to_canvas, Vec2.mk.injEq]
  constructor <;> · field_simp; ring

/-- Witness for C1: a zoom request of 3 at pivot (10, 20) from the sample
startup camera; the request clamps to MAX_ZOOM and the pivot's world point
is preserved. -/
theorem zoom_pivot_fixed_point_witness :
    (MIN_ZOOM ≤ (sample_ctx true).zoom_level ∧
       (sample_ctx true).zoom_level ≤ MAX_ZOOM) ∧
    ((ZoomTool._set_zoom sample_zoom_tool (sample_ctx true) 3 ⟨10, 20⟩).2.zoom_level =
        max MIN_ZOOM (min MAX_ZOOM 3) ∧
     simple_screen_to_canvas ⟨10, 20⟩
         (ZoomTool._set_zoom sample_zoom_tool (sample_ctx true) 3 ⟨10, 20⟩).2.zoom_level
         (ZoomTool._set_zoom sample_zoom_tool (sample_ctx true) 3 ⟨10, 20⟩).2.pan_offset =
       simple_screen_to_canvas ⟨10, 20⟩ (sample_ctx true).zoom_level
         (sample_ctx true).pan_offset) :=
  ⟨⟨by norm_num [MIN_ZOOM, sample_ctx], by norm_num [MAX_ZOOM, sample_ctx]⟩,
   zoom_pivot_fixed_point sample_zoom_tool (sample_ctx true) 3 ⟨10, 20⟩
     (by norm_num [MIN_ZOOM, sample_ctx]) (by norm_num [MAX_ZOOM, sample_ctx])⟩

/-! ## C2 : apply_constraints clamps or centers per axis -/

/-- The spec scenario state: startup camera at zoom 1 with a requested pan
offset of (100, 100) on the 1668 by 938 screen. -/
def scenario_ctx : Context Bool :=
  { sample_ctx true with pan_offset := ⟨100, 100⟩ }

/-- Evaluation of the spec scenario: the requested offset (100, 100) clamps
to (0, 0). -/
theorem scenario_offset_eval :
    (ZoomTool.apply_constraints sample_zoom_tool scenario_ctx
      ⟨8000, 6000⟩).pan_offset = ⟨0, 0⟩ := by
  have hmm :
      max sample_zoom_tool.min_zoom
        (min sample_zoom_tool.max_zoom scenario_ctx.zoom_level) = 1 := by
    norm_num [sample_zoom_tool, scenario_ctx, sample_ctx, MIN_ZOOM, MAX_ZOOM]
  simp only [ZoomTool.apply_constraints, hmm]
  norm_num [scenario_ctx, sample_ctx, max_def, min_def]

/-- C2.  apply_constraints keeps an in-range zoom, and per axis either
clamps the offset into [viewport - world*zoom, 0] (when the scaled world
covers the viewport) or locks it to the centering value (when it does not);
in the spec scenario (zoom 1, world 8000 by 6000, viewport 1668 by 938) the
requested offset (100, 100) becomes (0, 0) and the x clamp bound
1668 - 8000*1 is -6332. -/
theorem apply_constraints_clamp_center (self : ZoomTool) (c : Context α)
    (world : Vec2)
    (hmin : self.min_zoom = MIN_ZOOM) (hmax : self.max_zoom = MAX_ZOOM)
    (h1 : MIN_ZOOM ≤ c.zoom_level) (h2 : c.zoom_level ≤ MAX_ZOOM) :
    ((ZoomTool.apply_constraints self c world).zoom_level = c.zoom_level ∧
     ((c.screen_width : ℚ) ≤ world.x * c.zoom_level →
        (ZoomTool.apply_constraints self c world).pan_offset.x =
          max ((c.screen_width : ℚ) - world.x * c.zoom_level)
            (min 0 c.pan_offset.x) ∧
        (c.screen_width : ℚ) - world.x * c.zoom_level ≤
          (ZoomTool.apply_constraints self c world).pan_offset.x ∧
        (ZoomTool.apply_constraints self c world).pan_offset.x ≤ 0) ∧
     (world.x * c.zoom_level < (c.screen_width : ℚ) →
        (ZoomTool.apply_constraints self c world).pan_offset.x =
          ((c.screen_width : ℚ) - world.x * c.zoom_level) / 2) ∧
     ((c.screen_height : ℚ) ≤ world.y * c.zoom_level →
        (ZoomTool.apply_constraints self c world).pan_offset.y =
          max ((c.screen_height : ℚ) - world.y * c.zoom_level)
            (min 0 c.pan_offset.y) ∧
        (c.screen_height : ℚ) - world.y * c.zoom_level ≤
          (ZoomTool.apply_constraints self c world).pan_offset.y ∧
        (ZoomTool.apply_constraints self c world).pan_offset.y ≤ 0) ∧
     (world.y * c.zoom_level < (c.screen_height : ℚ) →
        (ZoomTool.apply_constraints self c world).pan_offset.y =
          ((c.screen_height : ℚ) - world.y * c.zoom_level) / 2)) ∧
    ((ZoomTool.apply_constraints sample_zoom_tool scenario_ctx
        ⟨8000, 6000⟩).pan_offset = ⟨0, 0⟩ ∧
     ((1668 : ℚ) - 8000 * 1 = -6332)) := by
  have hclamp : max self.min_zoom (min self.max_zoom c.zoom_level) = c.zoom_level := by
    rw [hmin, hmax, min_eq_right h2, max_eq_right h1]
  refine ⟨⟨?_, ?_, ?_, ?_, ?_⟩, scenario_offset_eval, by norm_num⟩
  · simp only [ZoomTool.apply_constraints, hclamp]
  · intro hx
    have hnot : ¬ ((0 : ℚ) < (c.screen_width : ℚ) - world.x * c.zoom_level) := by
      linarith
    refine ⟨?_, ?_, ?_⟩
    · simp only [ZoomTool.apply_constraints, hclamp, if_neg hnot]
    · simp only [ZoomTool.apply_constraints, hclamp, if_neg hnot]
      exact le_max_left _ _
    · simp only [ZoomTool.apply_constraints, hclamp, if_neg hnot]
      exact max_le (by linarith) (min_le_left _ _)
  · intro hx
    have hyes : ((0 : ℚ) < (c.screen_width : ℚ) - world.x * c.zoom_level) := by
      linarith
    simp only [ZoomTool.apply_constraints, hclamp, if_pos hyes]
    simp [max_self, min_self]
  · intro hy
    have hnot : ¬ ((0 : ℚ) < (c.screen_height : ℚ) - world.y * c.zoom_level) := by
      linarith
    refine ⟨?_, ?_, ?_⟩
    · simp only [ZoomTool.apply_constraints, hclamp, if_neg hnot]
    · simp only [ZoomTool.apply_constraints, hclamp, if_neg hnot]
      exact le_max_left _ _
    · simp only [ZoomTool.apply_constraints, hclamp, if_neg hnot]
      exact max_le (by linarith) (min_le_left _ _)
  · intro hy
    have hyes : ((0 : ℚ) < (c.screen_height : ℚ) - world.y * c.zoom_level) := by
      linarith
    simp only [ZoomTool.apply_constraints, hclamp, if_pos hyes]
    simp [max_self, min_self]

/-- Witness for C2: the theorem applied at the spec scenario itself. -/
theorem apply_constraints_clamp_center_witness :
    (sample_zoom_tool.min_zoom = MIN_ZOOM ∧ sample_zoom_tool.max_zoom = MAX_ZOOM ∧
     MIN_ZOOM ≤ scenario_ctx.zoom_level ∧ scenario_ctx.zoom_level ≤ MAX_ZOOM) ∧
    ((1668 : ℚ) ≤ 8000 * scenario_ctx.zoom_level →
      (ZoomTool.apply_constraints sample_zoom_tool scenario_ctx
          ⟨8000, 6000⟩).pan_offset.x =
        max ((1668 : ℚ) - 8000 * scenario_ctx.zoom_level)
          (min 0 scenario_ctx.pan_offset.x)) ∧
    (ZoomTool.apply_constraints sample_zoom_tool scenario_ctx
        ⟨8000, 6000⟩).pan_offset = ⟨0, 0⟩ :=
  ⟨⟨rfl, rfl, by norm_num [MIN_ZOOM, scenario_ctx, sample_ctx],
      by norm_num [MAX_ZOOM, scenario_ctx, sample_ctx]⟩,
   fun h =>
     ((apply_constraints_clamp_center sample_zoom_tool scenario_ctx ⟨8000, 6000⟩
         rfl rfl
         (by norm_num [MIN_ZOOM, scenario_ctx, sample_ctx])
         (by norm_num [MAX_ZOOM, scenario_ctx, sample_ctx])).1.2.1 h).1,
   (apply_constraints_clamp_center sample_zoom_tool scenario_ctx ⟨8000, 6000⟩
       rfl rfl
       (by norm_num [MIN_ZOOM, scenario_ctx, sample_ctx])
       (by norm_num [MAX_ZOOM, scenario_ctx, sample_ctx])).2.1⟩

/-! ## C3 : appending after an undo discards the redo tail -/

/-- A session state over string-named surfaces, for concrete history
scenarios. -/
def histState (h : List (String × String)) (idx : ℕ) (surf : String) :
    HostState String where
  ctx := { sample_ctx surf with drawing_surface := surf }
  dialog_state := none
  dialog_pending_action := none
  dialog_buttons := []
  running := true
  is_dirty := false
  current_project_path := none
  history := h
  history_index := idx
  history_scroll_offset := 0

/-- The second C3 scenario state: stack [A, B] at index 1 after drawing b. -/
def historyScenarioAB : HostState String :=
  histState [("a", "A"), ("b", "B")] 1 "b"

/-- The second C3 scenario: undo from [A, B], then draw c on the canvas. -/
def historyScenarioUndoDraw : HostState String :=
  { undo historyScenarioAB with
    ctx := { (undo historyScenarioAB).ctx with drawing_surface := "c" } }

/-- C3.  When the index sits strictly before the last entry (after at least
one undo), add_history truncates the stack to the entries up to the index
and appends the current surface, leaving the index on the new last entry;
concretely, from [A] at 0 undo is a no-op and adding B gives [A, B] at 1,
and from [A, B] at 1 undo followed by adding C gives [A, C] at 1 with B
discarded. -/
theorem add_history_discards_redo_tail (s : HostState α) (label : String)
    (hidx : s.history_index < s.history.length - 1)
    (hlen : s.history.length ≤ MAX_HISTORY_SIZE) :
    ((add_history s label).history =
       s.history.take (s.history_index + 1) ++ [(s.ctx.drawing_surface, label)] ∧
     (add_history s label).history_index = (add_history s label).history.length - 1 ∧
     (add_history s label).history_index = s.history_index + 1) ∧
    (undo (histState [("a", "A")] 0 "b") = histState [("a", "A")] 0 "b" ∧
     (add_history (histState [("a", "A")] 0 "b") "B").history =
       [("a", "A"), ("b", "B")] ∧
     (add_history (histState [("a", "A")] 0 "b") "B").history_index = 1 ∧
     (add_history historyScenarioUndoDraw "C").history = [("a", "A"), ("c", "C")] ∧
     (add_history historyScenarioUndoDraw "C").history_index = 1) := by
  have htake : (s.history.take (s.history_index + 1)).length = s.history_index + 1 := by
    rw [List.length_take]
    omega
  have hno_evict : ¬ (MAX_HISTORY_SIZE ≤ s.history_index + 1) := by
    simp only [MAX_HISTORY_SIZE] at hlen ⊢
    omega
  refine ⟨?_, by decide, by decide, by decide, by decide, by decide⟩
  simp only [add_history, if_pos hidx, htake, if_neg hno_evict,
    List.length_append, List.length_singleton, true_and, and_true]
  omega

/-- Witness for C3: the theorem applied to the state [A, B] at index 0 (one
undo back) with surface c, adding C; the truncated result is [A, C]. -/
theorem add_history_discards_redo_tail_witness :
    ((histState [("a", "A"), ("b", "B")] 0 "c").history_index <
       (histState [("a", "A"), ("b", "B")] 0 "c").history.length - 1 ∧
     (histState [("a", "A"), ("b", "B")] 0 "c").history.length ≤ MAX_HISTORY_SIZE) ∧
    (add_history (histState [("a", "A"), ("b", "B")] 0 "c") "C").history =
      [("a", "A"), ("c", "C")] :=
  ⟨⟨by decide, by decide⟩,
   ((add_history_discards_redo_tail (histState [("a", "A"), ("b", "B")] 0 "c") "C"
       (by decide) (by decide)).1.1).trans (by decide)⟩

/-! ## C4 : the history stack is bounded and keeps the newest entries -/

/-- A sequence of completed drawing actions: each updates the live surface
and then checkpoints it with add_history, as drawing tools do on mouse up. -/
def applyAdds (s : HostState α) (adds : List (α × String)) : HostState α :=
  adds.foldl
    (fun s p =>
      add_history { s with ctx := { s.ctx with drawing_surface := p.1 } } p.2) s

/-- One add_history from a state whose index is on the last entry: no
truncation happens; the oldest entry is evicted exactly when the stack is at
MAX_HISTORY_SIZE, and the new entry is appended with the index on it. -/
theorem add_history_step (s : HostState α) (surf : α) (label : String)
    (hinv : s.history_index + 1 = s.history.length) :
    (add_history { s with ctx := { s.ctx with drawing_surface := surf } } label).history =
      (if MAX_HISTORY_SIZE ≤ s.history.length then s.history.drop 1
       else s.history) ++ [(surf, label)] ∧
    (add_history { s with ctx := { s.ctx with drawing_surface := surf } }
        label).history_index + 1 =
      (add_history { s with ctx := { s.ctx with drawing_surface := surf } }
        label).history.length := by
  have hno_trunc : ¬ (s.history_index < s.history.length - 1) := by omega
  by_cases hfull : MAX_HISTORY_SIZE ≤ s.history.length
  · simp only [add_history, if_neg hno_trunc, if_pos hfull, List.length_append,
      List.length_drop, List.length_singleton, true_and, and_true]
    simp only [MAX_HISTORY_SIZE] at hfull
    omega
  · simp only [add_history, if_neg hno_trunc, if_neg hfull, List.length_append,
      List.length_singleton, true_and, and_true]
    omega

/-- C4.  Starting from any linear state (index on the last entry, at most
MAX_HISTORY_SIZE entries), any sequence of completed drawing actions leaves
at most MAX_HISTORY_SIZE entries, the index on the last entry, and the stack
equal to the most recent MAX_HISTORY_SIZE entries of the unbounded timeline
(older entries evicted from the front). -/
theorem history_bounded_most_recent (s : HostState α) (adds : List (α × String))
    (hinv : s.history_index + 1 = s.history.length)
    (hlen : s.history.length ≤ MAX_HISTORY_SIZE) :
    (applyAdds s adds).history.length ≤ MAX_HISTORY_SIZE ∧
    (applyAdds s adds).history_index + 1 = (applyAdds s adds).history.length ∧
    (applyAdds s adds).history =
      (s.history ++ adds).drop ((s.history ++ adds).length - MAX_HISTORY_SIZE) := by
  induction adds generalizing s with
  | nil =>
      refine ⟨hlen, hinv, ?_⟩
      simp only [applyAdds, List.foldl_nil, List.append_nil,
        Nat.sub_eq_zero_of_le hlen, List.drop_zero]
  | cons a rest ih =>
      have hstep := add_history_step s a.1 a.2 hinv
      set s1 := add_history { s with ctx := { s.ctx with drawing_surface := a.1 } } a.2
        with hs1
      have happ : applyAdds s (a :: rest) = applyAdds s1 rest := by
        simp only [applyAdds, List.foldl_cons]
      have hlen1 : s1.history.length ≤ MAX_HISTORY_SIZE := by
        rcases hstep with ⟨h1, _⟩
        rw [h1]
        by_cases hfull : MAX_HISTORY_SIZE ≤ s.history.length
        · simp only [if_pos hfull, List.length_append, List.length_drop,
            List.length_singleton]
          omega
        · simp only [if_neg hfull, List.length_append, List.length_singleton]
          omega
      have hres := ih s1 hstep.2 hlen1
      rw [happ]
      refine ⟨hres.1, hres.2.1, ?_⟩
      rw [hres.2.2, hstep.1]
      by_cases hfull : MAX_HISTORY_SIZE ≤ s.history.length
      · have h30 : s.history.length = MAX_HISTORY_SIZE := le_antisymm hlen hfull
        have hne : s.history.length ≠ 0 := by
          simp only [MAX_HISTORY_SIZE] at h30
          omega
        rw [if_pos hfull]
        have hdrop1 : s.history.drop 1 ++ [a] ++ rest =
            (s.history ++ a :: rest).drop 1 := by
          rw [List.drop_append_eq_append_drop]
          have : 1 - s.history.length = 0 := by omega
          rw [this, List.drop_zero, List.append_assoc, List.singleton_append]
        rw [hdrop1, List.drop_drop]
        congr 1
        simp only [List.length_append, List.length_drop, List.length_singleton,
          List.length_cons, h30]
        simp only [MAX_HISTORY_SIZE]
        omega
      · rw [if_neg hfull]
        have : s.history ++ [a] ++ rest = s.history ++ a :: rest := by
          rw [List.append_assoc, List.singleton_append]
        rw [this]

/-- Witness for C4: the theorem applied to the one-entry initial stack and
two drawing actions. -/
theorem history_bounded_most_recent_witness :
    ((histState [("w", "Initial")] 0 "w").history_index + 1 =
       (histState [("w", "Initial")] 0 "w").history.length ∧
     (histState [("w", "Initial")] 0 "w").history.length ≤ MAX_HISTORY_SIZE) ∧
    (applyAdds (histState [("w", "Initial")] 0 "w")
        [("b", "Brush"), ("e", "Eraser")]).history =
      [("w", "Initial"), ("b", "Brush"), ("e", "Eraser")] :=
  ⟨⟨by decide, by decide⟩,
   ((history_bounded_most_recent (histState [("w", "Initial")] 0 "w")
       [("b", "Brush"), ("e", "Eraser")] (by decide) (by decide)).2.2).trans
     (by decide)⟩

/-! ## C8 : startup fails fatally without full camera injection -/

theorem foldl_inj_get (get : InjSlots → Bool) (name : String)
    (hget : ∀ sl n, get (apply_injection sl n) = (get sl || decide (n = name)))
    (names : List String) (sl : InjSlots) :
    (get (names.foldl apply_injection sl) = true) ↔
      (get sl = true ∨ name ∈ names) := by
  induction names generalizing sl with
  | nil => simp
  | cons n rest ih =>
      rw [List.foldl_cons, ih, hget]
      simp only [Bool.or_eq_true, decide_eq_true_eq, List.mem_cons]
      constructor
      · rintro ((h | h) | h)
        · exact Or.inl h
        · exact Or.inr (Or.inl h.symm)
        · exact Or.inr (Or.inr h)
      · rintro (h | h | h)
        · exact Or.inl (Or.inl h)
        · exact Or.inl (Or.inr h.symm)
        · exact Or.inr h

theorem foldl_plugins_get (get : InjSlots → Bool) (name : String)
    (hget : ∀ sl n, get (apply_injection sl n) = (get sl || decide (n = name)))
    (plugins : List PluginConfig) (sl : InjSlots) :
    (get (plugins.foldl load_plugin_injections sl) = true) ↔
      (get sl = true ∨ ∃ p ∈ plugins, p.ptype = "utility_tool" ∧
        p.hasInjectMethods = true ∧ name ∈ p.injected_methods) := by
  induction plugins generalizing sl with
  | nil => simp
  | cons p rest ih =>
      rw [List.foldl_cons, ih]
      simp only [load_plugin_injections, List.mem_cons]
      by_cases hp : p.ptype = "utility_tool" ∧ p.hasInjectMethods = true
      · rw [if_pos (by exact ⟨hp.1, hp.2⟩), foldl_inj_get get name hget]
        constructor
        · rintro ((h | h) | h)
          · exact Or.inl h
          · exact Or.inr ⟨p, Or.inl rfl, hp.1, hp.2, h⟩
          · rcases h with ⟨q, hq, hrest⟩
            exact Or.inr ⟨q, Or.inr hq, hrest⟩
        · rintro (h | ⟨q, hq | hq, hrest⟩)
          · exact Or.inl (Or.inl h)
          · subst hq
            exact Or.inl (Or.inr hrest.2.2)
          · exact Or.inr ⟨q, hq, hrest⟩
      · rw [if_neg (by simpa using hp)]
        constructor
        · rintro (h | h)
          · exact Or.inl h
          · rcases h with ⟨q, hq, hrest⟩
            exact Or.inr ⟨q, Or.inr hq, hrest⟩
        · rintro (h | ⟨q, hq | hq, hrest⟩)
          · exact Or.inl h
          · subst hq
            exact absurd ⟨hrest.1, hrest.2.1⟩ hp
          · exact Or.inr ⟨q, hq, hrest⟩

/-- C8.  Canvas startup survives the injection validation if and only if
every one of the four camera slots (screen_to_canvas, canvas_to_screen,
set_zoom, apply_constraints) was supplied by some loaded utility tool with
an INJECT_METHODS map; otherwise the validation raises the unrecoverable
RuntimeError before the main loop. -/
theorem startup_requires_camera_injection (plugins : List PluginConfig) :
    (∃ u, canvas_startup_check plugins = Except.ok u) ↔
      (∀ name ∈ ["screen_to_canvas", "canvas_to_screen", "set_zoom",
                 "apply_constraints"],
        ∃ p ∈ plugins, p.ptype = "utility_tool" ∧ p.hasInjectMethods = true ∧
          name ∈ p.injected_methods) := by
  have h1 := foldl_plugins_get (fun sl => sl.screen_to_canvas) "screen_to_canvas"
    (by intro sl n; simp only [apply_injection]; split_ifs with a b c d e <;>
      simp_all) plugins empty_slots
  have h2 := foldl_plugins_get (fun sl => sl.canvas_to_screen) "canvas_to_screen"
    (by intro sl n; simp only [apply_injection]; split_ifs with a b c d e <;>
      simp_all) plugins empty_slots
  have h3 := foldl_plugins_get (fun sl => sl.set_zoom) "set_zoom"
    (by intro sl n; simp only [apply_injection]; split_ifs with a b c d e <;>
      simp_all) plugins empty_slots
  have h4 := foldl_plugins_get (fun sl => sl.apply_constraints) "apply_constraints"
    (by intro sl n; simp only [apply_injection]; split_ifs with a b c d e <;>
      simp_all) plugins empty_slots
  simp only [empty_slots, Bool.false_eq_true, false_or] at h1 h2 h3 h4
  constructor
  · rintro ⟨u, hu⟩
    simp only [canvas_startup_check, injection_validation] at hu
    split_ifs at hu with hcond
    intro name hname
    simp only [List.mem_cons, List.not_mem_nil, or_false] at hname
    push_neg at hcond
    rcases hcond with ⟨c1, c2, c3, c4⟩
    rcases hname with h | h | h | h <;> subst h
    · exact (h1).1 (by simpa using c1)
    · exact (h2).1 (by simpa using c2)
    · exact (h3).1 (by simpa using c3)
    · exact (h4).1 (by simpa using c4)
  · intro hall
    refine ⟨(), ?_⟩
    simp only [canvas_startup_check, injection_validation]
    rw [if_neg]
    push_neg
    refine ⟨?_, ?_, ?_, ?_⟩
    · simpa using (h1).2 (hall _ (by simp))
    · simpa using (h2).2 (hall _ (by simp))
    · simpa using (h3).2 (hall _ (by simp))
    · simpa using (h4).2 (hall _ (by simp))

/-- The @builtins ZoomTool plugin as the loader presents it. -/
def zoom_plugin_config : PluginConfig :=
  ⟨"components.@builtins.utils.zoom", "utility_tool", true,
   ["set_zoom", "apply_constraints", "screen_to_canvas", "canvas_to_screen"]⟩

/-- The @builtins HandTool plugin as the loader presents it. -/
def hand_plugin_config : PluginConfig :=
  ⟨"components.@builtins.tools.Hand", "utility_tool", true, ["hand_tool_id"]⟩

/-- Witness for C8: with the ZoomTool plugin loaded startup passes the
validation, and with only the HandTool plugin it does not. -/
theorem startup_requires_camera_injection_witness :
    (∃ u, canvas_startup_check [zoom_plugin_config, hand_plugin_config] =
        Except.ok u) ∧
    ¬ (∃ u, canvas_startup_check [hand_plugin_config] = Except.ok u) :=
  ⟨(startup_requires_camera_injection
      [zoom_plugin_config, hand_plugin_config]).mpr (by decide),
   fun h =>
     absurd ((startup_requires_camera_injection [hand_plugin_config]).mp h
       "screen_to_canvas" (by decide)) (by decide)⟩

/-! ## C7 : loading a project whose stored size differs from the world -/

/-- A sample loaded surface of size 4000 by 3000 (half the world on each
axis) whose pixel colours encode their coordinates. -/
def loaded_surface_4000 : PSurface :=
  ⟨4000, 3000, fun x y => (x + 10000 * y).toNat⟩

/-- Host parameters for a session over pixel surfaces in which the open
dialog returns the 4000 by 3000 surface, with the camera injected by a
ZoomTool instance. -/
def open_params : HostParams PSurface where
  screen_width := 1668
  screen_height := 938
  white := blank_world_surface
  openResult := some (loaded_surface_4000, "old.vecbo")
  saveResult := false
  savePath := ""
  injected := zoom_injected sample_zoom_tool
  utilities := []
  tools := []
  toolById := fun _ => none
  hand_tool_id := none

/-- A session state over pixel surfaces before the open. -/
def open_state : HostState PSurface where
  ctx := sample_ctx blank_world_surface
  dialog_state := none
  dialog_pending_action := none
  dialog_buttons := []
  running := true
  is_dirty := false
  current_project_path := none
  history := [(blank_world_surface, "Initial")]
  history_index := 0
  history_scroll_offset := 0

/-- Counterexample for C7.  In src/surfaces/projects/canvas.py, open_file
adopts the loaded surface at its stored size: loading a successfully decoded
4000 by 3000 project leaves a 4000 by 3000 drawing surface, not a world
sized (8000 by 6000) one. -/
theorem projects_open_file_adopts_size :
    (open_file open_params open_state).2 = true ∧
    ((open_file open_params open_state).1.ctx.drawing_surface.w,
      (open_file open_params open_state).1.ctx.drawing_surface.h) = (4000, 3000) ∧
    ((4000 : ℤ), (3000 : ℤ)) ≠ (WORLD_WIDTH, WORLD_HEIGHT) := by
  refine ⟨rfl, rfl, by decide⟩

/-- C7 amended.  The boards/canvas.py variant of open_file does re-center: a
loaded surface whose size differs from the world constants is blitted
centered onto a fresh white world-sized surface, every loaded pixel is
preserved at its centered position, pixels outside the blit rect are white,
and a world-sized load is kept unchanged. -/
theorem boards_open_file_recenters (loaded : PSurface)
    (hne : (loaded.w, loaded.h) ≠ (WORLD_WIDTH, WORLD_HEIGHT)) :
    (boards_open_file_surface loaded).w = WORLD_WIDTH ∧
    (boards_open_file_surface loaded).h = WORLD_HEIGHT ∧
    (∀ x y, 0 ≤ x → x < loaded.w → 0 ≤ y → y < loaded.h →
      (boards_open_file_surface loaded).pix
          (pydiv WORLD_WIDTH 2 - pydiv loaded.w 2 + x)
          (pydiv WORLD_HEIGHT 2 - pydiv loaded.h 2 + y) = loaded.pix x y) ∧
    (∀ x y, (x < pydiv WORLD_WIDTH 2 - pydiv loaded.w 2 ∨
             pydiv WORLD_WIDTH 2 - pydiv loaded.w 2 + loaded.w ≤ x ∨
             y < pydiv WORLD_HEIGHT 2 - pydiv loaded.h 2 ∨
             pydiv WORLD_HEIGHT 2 - pydiv loaded.h 2 + loaded.h ≤ y) →
      (boards_open_file_surface loaded).pix x y = WHITE) := by
  simp only [boards_open_file_surface, if_pos hne]
  refine ⟨trivial, trivial, ?_, ?_⟩
  · intro x y hx0 hxw hy0 hyh
    rw [if_pos (by constructor <;> [linarith; constructor <;> [linarith;
      constructor <;> linarith]])]
    congr 1 <;> ring
  · intro x y hout
    rw [if_neg]
    rintro ⟨a, b, c, d⟩
    rcases hout with h | h | h | h <;> linarith

/-- Witness for C7 (amended): re-centering a 2 by 2 surface; the pixel at
(0, 0) of the load appears at (3999, 2999) of the world surface. -/
theorem boards_open_file_recenters_witness :
    (((2 : ℤ), (2 : ℤ)) ≠ (WORLD_WIDTH, WORLD_HEIGHT) ∧
     (0 : ℤ) ≤ 0 ∧ (0 : ℤ) < 2) ∧
    (boards_open_file_surface ⟨2, 2, fun x y => (7 + x + y).toNat⟩).w =
      WORLD_WIDTH ∧
    (boards_open_file_surface ⟨2, 2, fun x y => (7 + x + y).toNat⟩).pix
        (pydiv WORLD_WIDTH 2 - pydiv 2 2 + 0)
        (pydiv WORLD_HEIGHT 2 - pydiv 2 2 + 0) = 7 :=
  ⟨⟨by decide, le_refl 0, by decide⟩,
   (boards_open_file_recenters ⟨2, 2, fun x y => (7 + x + y).toNat⟩
      (by decide)).1,
   ((boards_open_file_recenters ⟨2, 2, fun x y => (7 + x + y).toNat⟩
      (by decide)).2.2.1 0 0 (le_refl 0) (by decide) (le_refl 0)
      (by decide)).trans (by decide)⟩

/-! ## C5 : an open modal dialog owns every event of the frame -/

theorem find_clicked_dialog_button_none (buttons : List (String × Rect))
    (pos : ℤ × ℤ) (h : ∀ br ∈ buttons, br.2.containsB pos = false) :
    find_clicked_dialog_button buttons pos = none := by
  induction buttons with
  | nil => rfl
  | cons br rest ih =>
      simp only [find_clicked_dialog_button]
      rw [if_neg (by simp [h br (List.mem_cons_self br rest)])]
      exact ih fun b hb => h b (List.mem_cons_of_mem br hb)

theorem dialog_handle_event_miss (P : HostParams α) (s : HostState α) (e : Event)
    (h : ∀ pos, e = Event.mouseButtonDown 1 pos →
      ∀ br ∈ s.dialog_buttons, br.2.containsB pos = false) :
    (dialog_handle_event P s e).ctx.drawing_surface = s.ctx.drawing_surface ∧
    (dialog_handle_event P s e).dialog_buttons = s.dialog_buttons := by
  cases e with
  | mouseButtonDown b pos =>
      match b with
      | 1 =>
          have hfind := find_clicked_dialog_button_none s.dialog_buttons pos
            (h pos rfl)
          refine ⟨?_, ?_⟩ <;> simp only [dialog_handle_event, hfind]
      | 0 => exact ⟨rfl, rfl⟩
      | (n + 2) => exact ⟨rfl, rfl⟩
  | mouseButtonUp b pos => exact ⟨rfl, rfl⟩
  | mouseMotion pos => exact ⟨rfl, rfl⟩
  | mouseWheel y => exact ⟨rfl, rfl⟩
  | keyDown k c sh => exact ⟨rfl, rfl⟩
  | keyUp k c sh => exact ⟨rfl, rfl⟩
  | quitEvent => exact ⟨rfl, rfl⟩
  | openTimer => exact ⟨rfl, rfl⟩

theorem dialog_fold_miss (P : HostParams α) (events : List Event) :
    ∀ s : HostState α,
      (∀ pos, Event.mouseButtonDown 1 pos ∈ events →
        ∀ br ∈ s.dialog_buttons, br.2.containsB pos = false) →
      (events.foldl (fun s e => dialog_handle_event P s e) s).ctx.drawing_surface =
          s.ctx.drawing_surface ∧
      (events.foldl (fun s e => dialog_handle_event P s e) s).dialog_buttons =
          s.dialog_buttons := by
  induction events with
  | nil => exact fun s _ => ⟨rfl, rfl⟩
  | cons e rest ih =>
      intro s h
      have hme := dialog_handle_event_miss P s e
        (fun pos hpos => h pos (hpos ▸ List.mem_cons_self e rest))
      have hrest := ih (dialog_handle_event P s e)
        (fun pos hpos br hbr =>
          h pos (List.mem_cons_of_mem e hpos) br (hme.2 ▸ hbr))
      rw [List.foldl_cons]
      exact ⟨hrest.1.trans hme.1, hrest.2.trans hme.2⟩

/-- C5 amended.  While the modal dialog is open, no event of the frame is
delivered to the normal dispatch pipeline (the post-dialog stage receives
the empty event list), and provided no left mouse down of the frame lands on
a dialog button, the backing drawing surface is unchanged afterward.  (A
down that does land on a dialog button can change the surface through the
button's own action, see the counterexample.) -/
theorem dialog_stage_exclusive (P : HostParams α) (s : HostState α)
    (events : List Event) (hd : s.dialog_state.isSome = true) :
    (processFrame P s events).2 = [] ∧
    ((∀ pos, Event.mouseButtonDown 1 pos ∈ events →
        ∀ br ∈ s.dialog_buttons, br.2.containsB pos = false) →
      (processFrame P s events).1.ctx.drawing_surface = s.ctx.drawing_surface) := by
  refine ⟨?_, fun h => ?_⟩
  · simp only [processFrame, hd, if_pos]
  · have h2 := (dialog_fold_miss P events
      { s with ctx := { s.ctx with click_on_ui := false } } h).1
    simp only [processFrame, hd, if_pos]
    exact h2

/-- Session parameters over Boolean surfaces (false = the initial canvas
content, true = the white fill) with the camera injected by a ZoomTool. -/
def bool_params : HostParams Bool where
  screen_width := 1668
  screen_height := 938
  white := true
  openResult := none
  saveResult := false
  savePath := ""
  injected := zoom_injected sample_zoom_tool
  utilities := []
  tools := []
  toolById := fun _ => none
  hand_tool_id := none

/-- A session with the confirm_action dialog open over an unsaved drawing
(pending action: new_canvas, surface not blank). -/
def dialog_open_state : HostState Bool where
  ctx := sample_ctx false
  dialog_state := some "confirm_action"
  dialog_pending_action := some "new_canvas"
  dialog_buttons := confirm_dialog_buttons bool_params
  running := true
  is_dirty := true
  current_project_path := none
  history := [(false, "Initial")]
  history_index := 0
  history_scroll_offset := 0

/-- Witness for C5: a paint-stroke pair at (50, 50), far from the dialog
buttons, while the dialog is open: nothing reaches the pipeline and the
surface is untouched. -/
theorem dialog_stage_exclusive_witness :
    dialog_open_state.dialog_state.isSome = true ∧
    (processFrame bool_params dialog_open_state
        [Event.mouseButtonDown 1 (50, 50), Event.mouseButtonUp 1 (50, 50)]).2 = [] ∧
    (processFrame bool_params dialog_open_state
        [Event.mouseButtonDown 1 (50, 50),
         Event.mouseButtonUp 1 (50, 50)]).1.ctx.drawing_surface =
      dialog_open_state.ctx.drawing_surface :=
  ⟨rfl,
   (dialog_stage_exclusive bool_params dialog_open_state
      [Event.mouseButtonDown 1 (50, 50), Event.mouseButtonUp 1 (50, 50)] rfl).1,
   (dialog_stage_exclusive bool_params dialog_open_state
      [Event.mouseButtonDown 1 (50, 50), Event.mouseButtonUp 1 (50, 50)] rfl).2
     (by
       intro pos hpos br hbr
       simp only [List.mem_cons, List.not_mem_nil, or_false] at hpos
       rcases hpos with h | h
       · obtain ⟨-, rfl⟩ := Event.mouseButtonDown.inj h
         revert br hbr
         decide
       · exact absurd h (by simp))⟩

/-- Counterexample for C5 as stated.  A mouse-down/up pair delivered while
the dialog is open, landing on the Don't Save button with a pending
new-canvas action, clears the drawing surface: the backing surface changes
even though no event reached any later dispatch stage. -/
theorem dialog_dont_save_clears_surface :
    dialog_open_state.dialog_state.isSome = true ∧
    dialog_open_state.ctx.drawing_surface = false ∧
    (processFrame bool_params dialog_open_state
        [Event.mouseButtonDown 1 (800, 520),
         Event.mouseButtonUp 1 (800, 520)]).1.ctx.drawing_surface = true :=
  ⟨rfl, rfl, rfl⟩

/-! ## C6 : clicking outside an open menu's hot zone -/

theorem util_fold_id (handlers : List (Context α → Event → Context α × Bool))
    (c : Context α) (e : Event)
    (h : ∀ u ∈ handlers, u c e = (c, false)) :
    util_fold handlers c e = (c, false) := by
  induction handlers with
  | nil => rfl
  | cons u rest ih =>
      simp only [util_fold]
      rw [h u (List.mem_cons_self u rest)]
      exact ih fun v hv => h v (List.mem_cons_of_mem u hv)

theorem find_file_menu_hit_none (path : Option String) (pos : ℤ × ℤ)
    (h : ∀ r ∈ file_menu_hot_zone path, r.containsB pos = false) :
    find_file_menu_hit path pos = none := by
  have : (file_menu_entries path).find? (fun tr => tr.2.containsB pos) = none := by
    rw [List.find?_eq_none]
    intro tr htr
    simp only [h tr.2 (by
      simp only [file_menu_hot_zone, List.mem_cons]
      exact Or.inr (List.mem_map_of_mem Prod.snd htr)), Bool.false_eq_true,
      not_false_eq_true]
  simp only [find_file_menu_hit, this, Option.map_none']

theorem hot_zone_any_false (zone : List Rect) (pos : ℤ × ℤ)
    (h : ∀ r ∈ zone, r.containsB pos = false) :
    (zone.any fun r => r.containsB pos) = false := by
  rw [List.any_eq_false]
  intro r hr
  simp [h r hr]

/-- C6 amended.  A left mouse down outside the open File/History menu's hot
zone (and not claimed by an earlier stage: not on the top-bar buttons, not
consumed by a utility tool, not on a toolbar tool button) closes the menu
AND consumes the event: click_on_ui is set, the event is removed, and it is
never delivered to the active tool.  (The claim's click-through to the
active tool does not happen; toolbar buttons only see such a click because
their stage runs before the click-off stage.) -/
theorem menu_softclose_consumes_event (P : HostParams α) (s : HostState α)
    (pos : ℤ × ℤ) (m : String)
    (hmenu : s.ctx.menu_open = some m)
    (hm : m = "file" ∨ m = "history")
    (hclick : s.ctx.click_on_ui = false)
    (hmouse : s.ctx.mouse_pos = pos)
    (hutil : ∀ u ∈ P.utilities,
      u s.ctx (Event.mouseButtonDown 1 pos) = (s.ctx, false))
    (hfile : file_btn_rect.containsB pos = false)
    (hhist : history_btn_rect.containsB pos = false)
    (hzf : ∀ r ∈ file_menu_hot_zone s.current_project_path,
      r.containsB pos = false)
    (hzh : history_placeholder_rect.containsB pos = false)
    (htools : ∀ t ∈ P.tools, t.button_rect.containsB pos = false)
    (hnotool : P.toolById m = none) :
    dispatchEvent P s (Event.mouseButtonDown 1 pos) =
      ({ s with ctx := { s.ctx with menu_open := none, click_on_ui := true } },
       ⟨true, false⟩) := by
  have hu := util_fold_id P.utilities s.ctx (Event.mouseButtonDown 1 pos) hutil
  have hfind := find_file_menu_hit_none s.current_project_path pos hzf
  have hanyf := hot_zone_any_false (file_menu_hot_zone s.current_project_path)
    pos hzf
  have hanyh : (history_menu_hot_zone.any fun r => r.containsB pos) = false := by
    apply hot_zone_any_false
    intro r hr
    simp only [history_menu_hot_zone, List.mem_cons, List.not_mem_nil,
      or_false] at hr
    rcases hr with rfl | rfl
    · exact hhist
    · exact hzh
  have hfindtool : P.tools.find? (fun t => t.button_rect.containsB pos) = none := by
    rw [List.find?_eq_none]
    intro t ht
    simp [htools t ht]
  rcases hm with rfl | rfl
  · simp [dispatchEvent, wheel_stage, hover_stage, key_stage,
      menu_mousedown_stage, hu, hclick, hmenu, hmouse, hfile, hhist, hfind,
      hanyf, hanyh, hnotool, hfindtool]
  · simp [dispatchEvent, wheel_stage, hover_stage, key_stage,
      menu_mousedown_stage, hu, hclick, hmenu, hmouse, hfile, hhist, hfind,
      hanyf, hanyh, hnotool, hfindtool, hzh]

/-- A minimal pen-like drawing-tool handler: consumes a left mouse down by
starting a stroke. -/
def pen_tool_handler : Context Bool → Event → Context Bool × Bool :=
  fun c e =>
    match e with
    | .mouseButtonDown 1 _ => ({ c with is_drawing := true }, true)
    | _ => (c, false)

/-- Session parameters with one loaded pen tool on the toolbar. -/
def menu_params : HostParams Bool where
  screen_width := 1668
  screen_height := 938
  white := true
  openResult := none
  saveResult := false
  savePath := ""
  injected := zoom_injected sample_zoom_tool
  utilities := []
  tools := [⟨"pen", ⟨10, 868, 60, 60⟩, pen_tool_handler⟩]
  toolById := fun id => if id = "pen" then some pen_tool_handler else none
  hand_tool_id := none

/-- A session with the File menu open, the pen tool active, and the cursor
at (800, 500): over the canvas, outside every hot zone and button. -/
def menu_open_state : HostState Bool where
  ctx := { sample_ctx false with
           menu_open := some "file", active_tool_id := "pen",
           mouse_pos := (800, 500) }
  dialog_state := none
  dialog_pending_action := none
  dialog_buttons := []
  running := true
  is_dirty := false
  current_project_path := none
  history := [(false, "Initial")]
  history_index := 0
  history_scroll_offset := 0

/-- Witness for C6 (amended): the soft-close click at (800, 500) with the
File menu open, via the theorem. -/
theorem menu_softclose_consumes_event_witness :
    menu_open_state.ctx.menu_open = some "file" ∧
    (∀ r ∈ file_menu_hot_zone menu_open_state.current_project_path,
      r.containsB (800, 500) = false) ∧
    dispatchEvent menu_params menu_open_state (Event.mouseButtonDown 1 (800, 500)) =
      ({ menu_open_state with
         ctx := { menu_open_state.ctx with
                  menu_open := none, click_on_ui := true } },
       ⟨true, false⟩) :=
  ⟨rfl, by decide,
   menu_softclose_consumes_event menu_params menu_open_state (800, 500) "file"
     rfl (Or.inl rfl) rfl rfl (by simp [menu_params]) (by decide) (by decide)
     (by decide) (by decide) (by decide) rfl⟩

/-- Counterexample for C6 as stated.  The same soft-close click: the menu
does close, but the event IS consumed (click_on_ui set, event removed) and
it never reaches the active pen tool — there is no click-through to the
active tool. -/
theorem menu_softclose_counterexample :
    menu_open_state.ctx.menu_open = some "file" ∧
    (∀ r ∈ file_menu_hot_zone menu_open_state.current_project_path,
      r.containsB (800, 500) = false) ∧
    (dispatchEvent menu_params menu_open_state
        (Event.mouseButtonDown 1 (800, 500))).1.ctx.menu_open = none ∧
    (dispatchEvent menu_params menu_open_state
        (Event.mouseButtonDown 1 (800, 500))).2.consumed = true ∧
    (dispatchEvent menu_params menu_open_state
        (Event.mouseButtonDown 1 (800, 500))).2.activeToolSaw = false := by
  exact ⟨rfl, by decide, rfl, rfl, rfl⟩

/-! ## C10 : repeated space key downs and the previous-tool slot -/

theorem hand_handle_key_down (ht : HandTool) (c : Context α) (k : Key)
    (ct sh : Bool) :
    HandTool.handle_event ht c (.keyDown k ct sh) = (c, false) := by
  simp only [HandTool.handle_event]
  split <;> rfl

theorem hand_handle_key_up (ht : HandTool) (c : Context α) (k : Key)
    (ct sh : Bool) :
    HandTool.handle_event ht c (.keyUp k ct sh) = (c, false) := by
  simp only [HandTool.handle_event]
  split <;> rfl

theorem zoom_handle_key_down_no_ctrl (zt : ZoomTool) (c : Context α) (k : Key)
    (sh : Bool) :
    ZoomTool.handle_event zt c (.keyDown k false sh) = (zt, c, false) := rfl

theorem zoom_handle_key_up (zt : ZoomTool) (c : Context α) (k : Key)
    (ct sh : Bool) :
    ZoomTool.handle_event zt c (.keyUp k ct sh) = (zt, c, false) := rfl

theorem util_fold_zoom_hand_key (zt : ZoomTool) (ht : HandTool)
    (c : Context α) (k : Key) (sh : Bool) :
    util_fold [zoom_util_handler zt, hand_util_handler ht] c
      (.keyDown k false sh) = (c, false) := by
  apply util_fold_id
  intro u hu
  simp only [List.mem_cons, List.not_mem_nil, or_false] at hu
  rcases hu with rfl | rfl
  · simp only [zoom_util_handler, zoom_handle_key_down_no_ctrl]
  · simp only [hand_util_handler, hand_handle_key_down]

theorem util_fold_zoom_hand_key_up (zt : ZoomTool) (ht : HandTool)
    (c : Context α) (k : Key) (ct sh : Bool) :
    util_fold [zoom_util_handler zt, hand_util_handler ht] c
      (.keyUp k ct sh) = (c, false) := by
  apply util_fold_id
  intro u hu
  simp only [List.mem_cons, List.not_mem_nil, or_false] at hu
  rcases hu with rfl | rfl
  · simp only [zoom_util_handler, zoom_handle_key_up]
  · simp only [hand_util_handler, hand_handle_key_up]

theorem dispatch_space_down_activates (P : HostParams α) (s : HostState α)
    (zt : ZoomTool) (ht : HandTool) (hid : String)
    (hhand : P.hand_tool_id = some hid)
    (hutil : P.utilities = [zoom_util_handler zt, hand_util_handler ht])
    (hclick : s.ctx.click_on_ui = false)
    (hmenu : s.ctx.menu_open = none)
    (hactive : s.ctx.active_tool_id ≠ hid) :
    dispatchEvent P s (Event.keyDown Key.space false false) =
      ({ s with ctx := { s.ctx with
           previous_tool_id := s.ctx.active_tool_id,
           active_tool_id := hid, click_on_ui := true } },
       ⟨true, false⟩) := by
  have hu : util_fold P.utilities s.ctx (Event.keyDown Key.space false false) =
      (s.ctx, false) := by
    rw [hutil]
    exact util_fold_zoom_hand_key zt ht s.ctx Key.space false
  simp [dispatchEvent, wheel_stage, hover_stage, key_stage, hu, hclick, hmenu,
    hhand, hactive]

theorem dispatch_space_down_noop (P : HostParams α) (s : HostState α)
    (zt : ZoomTool) (ht : HandTool) (hid : String)
    (hhand : P.hand_tool_id = some hid)
    (hutil : P.utilities = [zoom_util_handler zt, hand_util_handler ht])
    (hby : P.toolById hid = some (hand_util_handler ht))
    (hclick : s.ctx.click_on_ui = false)
    (hmenu : s.ctx.menu_open = none)
    (hactive : s.ctx.active_tool_id = hid) :
    dispatchEvent P s (Event.keyDown Key.space false false) =
      (s, ⟨false, true⟩) := by
  have hu : util_fold P.utilities s.ctx (Event.keyDown Key.space false false) =
      (s.ctx, false) := by
    rw [hutil]
    exact util_fold_zoom_hand_key zt ht s.ctx Key.space false
  have hh : hand_util_handler (α := α) ht s.ctx
      (Event.keyDown Key.space false false) = (s.ctx, false) :=
    hand_handle_key_down ht s.ctx Key.space false false
  simp [dispatchEvent, wheel_stage, hover_stage, key_stage,
    menu_mousedown_stage, hu, hclick, hmenu, hhand, hactive, hby, hh]

theorem dispatch_space_up_restores (P : HostParams α) (s : HostState α)
    (zt : ZoomTool) (ht : HandTool) (hid : String)
    (hhand : P.hand_tool_id = some hid)
    (hutil : P.utilities = [zoom_util_handler zt, hand_util_handler ht])
    (hclick : s.ctx.click_on_ui = false)
    (hmenu : s.ctx.menu_open = none)
    (hactive : s.ctx.active_tool_id = hid) :
    dispatchEvent P s (Event.keyUp Key.space false false) =
      ({ s with ctx := { s.ctx with
           active_tool_id := s.ctx.previous_tool_id,
           is_panning := false, click_on_ui := true } },
       ⟨true, false⟩) := by
  have hu : util_fold P.utilities s.ctx (Event.keyUp Key.space false false) =
      (s.ctx, false) := by
    rw [hutil]
    exact util_fold_zoom_hand_key_up zt ht s.ctx Key.space false false
  simp [dispatchEvent, wheel_stage, hover_stage, key_stage, hu, hclick, hmenu,
    hhand, hactive]

/-- One frame whose only event is a space key down (OS auto-repeat delivers
one such frame per repeat). -/
def spaceDownFrame (P : HostParams α) (st : HostState α) : HostState α :=
  (processFrame P st [Event.keyDown Key.space false false]).1

/-- C10.  With the ZoomTool and HandTool loaded and the hand tool id
injected, starting from any no-menu no-dialog state whose active tool is not
the hand tool: after the first space key down the hand tool is active and
previous_tool_id holds the old tool; any number of further (auto-repeat)
space key downs leave both unchanged; and the eventual space key up restores
the original tool (previous_tool_id never comes to hold the hand tool id). -/
theorem space_hold_restores_previous_tool (P : HostParams α) (s : HostState α)
    (zt : ZoomTool) (ht : HandTool) (hid : String)
    (hhand : P.hand_tool_id = some hid)
    (hutil : P.utilities = [zoom_util_handler zt, hand_util_handler ht])
    (hby : P.toolById hid = some (hand_util_handler ht))
    (hdialog : s.dialog_state = none)
    (hmenu : s.ctx.menu_open = none)
    (hactive : s.ctx.active_tool_id ≠ hid) (n : ℕ) :
    ((spaceDownFrame P)^[n] (spaceDownFrame P s)).ctx.active_tool_id = hid ∧
    ((spaceDownFrame P)^[n] (spaceDownFrame P s)).ctx.previous_tool_id =
      s.ctx.active_tool_id ∧
    (processFrame P ((spaceDownFrame P)^[n] (spaceDownFrame P s))
        [Event.keyUp Key.space false false]).1.ctx.active_tool_id =
      s.ctx.active_tool_id ∧
    (processFrame P ((spaceDownFrame P)^[n] (spaceDownFrame P s))
        [Event.keyUp Key.space false false]).1.ctx.previous_tool_id =
      s.ctx.active_tool_id := by
  have hframe : ∀ (x : HostState α) (e : Event), x.dialog_state = none →
      (processFrame P x [e]).1 =
        (dispatchEvent P { x with ctx := { x.ctx with click_on_ui := false } } e).1 := by
    intro x e hx
    simp [processFrame, hx]
  have hdown_noop : ∀ x : HostState α, x.dialog_state = none →
      x.ctx.menu_open = none → x.ctx.active_tool_id = hid →
      spaceDownFrame P x = { x with ctx := { x.ctx with click_on_ui := false } } := by
    intro x h1 h2 h3
    unfold spaceDownFrame
    rw [hframe x _ h1]
    rw [dispatch_space_down_noop P
      { x with ctx := { x.ctx with click_on_ui := false } } zt ht hid hhand hutil
      hby rfl h2 h3]
  have hs1 : spaceDownFrame P s =
      { s with ctx := { s.ctx with
          previous_tool_id := s.ctx.active_tool_id,
          active_tool_id := hid, click_on_ui := true } } := by
    unfold spaceDownFrame
    rw [hframe s _ hdialog]
    rw [dispatch_space_down_activates P
      { s with ctx := { s.ctx with click_on_ui := false } } zt ht hid hhand hutil
      rfl hmenu hactive]
  have hs2 : spaceDownFrame P (spaceDownFrame P s) =
      { s with ctx := { s.ctx with
          previous_tool_id := s.ctx.active_tool_id,
          active_tool_id := hid, click_on_ui := false } } := by
    rw [hs1]
    exact hdown_noop
      { s with ctx := { s.ctx with
          previous_tool_id := s.ctx.active_tool_id,
          active_tool_id := hid, click_on_ui := true } } hdialog hmenu rfl
  have hfix : spaceDownFrame P
      { s with ctx := { s.ctx with
          previous_tool_id := s.ctx.active_tool_id,
          active_tool_id := hid, click_on_ui := false } } =
      { s with ctx := { s.ctx with
          previous_tool_id := s.ctx.active_tool_id,
          active_tool_id := hid, click_on_ui := false } } :=
    hdown_noop
      { s with ctx := { s.ctx with
          previous_tool_id := s.ctx.active_tool_id,
          active_tool_id := hid, click_on_ui := false } } hdialog hmenu rfl
  have hup : ∀ x : HostState α, x.dialog_state = none → x.ctx.menu_open = none →
      x.ctx.active_tool_id = hid →
      (processFrame P x [Event.keyUp Key.space false false]).1.ctx.active_tool_id =
        x.ctx.previous_tool_id ∧
      (processFrame P x
          [Event.keyUp Key.space false false]).1.ctx.previous_tool_id =
        x.ctx.previous_tool_id := by
    intro x h1 h2 h3
    rw [hframe x _ h1]
    rw [dispatch_space_up_restores P
      { x with ctx := { x.ctx with click_on_ui := false } } zt ht hid hhand hutil
      rfl h2 h3]
    exact ⟨rfl, rfl⟩
  cases n with
  | zero =>
      rw [Function.iterate_zero_apply, hs1]
      refine ⟨rfl, rfl, ?_⟩
      have := hup { s with ctx := { s.ctx with
          previous_tool_id := s.ctx.active_tool_id,
          active_tool_id := hid, click_on_ui := true } } hdialog hmenu rfl
      exact this
  | succ m =>
      rw [Function.iterate_succ_apply, hs2,
        Function.iterate_fixed hfix m]
      refine ⟨rfl, rfl, ?_⟩
      have := hup { s with ctx := { s.ctx with
          previous_tool_id := s.ctx.active_tool_id,
          active_tool_id := hid, click_on_ui := false } } hdialog hmenu rfl
      exact this

/-- A concrete HandTool instance next to the pen on the toolbar. -/
def c10_hand : HandTool := ⟨"hand0", ⟨80, 868, 60, 60⟩⟩

/-- Session parameters with the ZoomTool and HandTool loaded as utility
tools, the pen loaded as a drawing tool, and the hand tool id injected. -/
def c10_params : HostParams Bool where
  screen_width := 1668
  screen_height := 938
  white := true
  openResult := none
  saveResult := false
  savePath := ""
  injected := zoom_injected sample_zoom_tool
  utilities := [zoom_util_handler sample_zoom_tool, hand_util_handler c10_hand]
  tools := [⟨"pen", ⟨10, 868, 60, 60⟩, pen_tool_handler⟩]
  toolById := fun id =>
    if id = "hand0" then some (hand_util_handler c10_hand)
    else if id = "pen" then some pen_tool_handler
    else none
  hand_tool_id := some "hand0"

/-- An idle session with the pen active, no menu and no dialog. -/
def c10_state : HostState Bool where
  ctx := { sample_ctx false with active_tool_id := "pen" }
  dialog_state := none
  dialog_pending_action := none
  dialog_buttons := []
  running := true
  is_dirty := false
  current_project_path := none
  history := [(false, "Initial")]
  history_index := 0
  history_scroll_offset := 0

/-- Witness for C10: pressing space, auto-repeating it twice more, then
releasing, starting from the pen tool. -/
theorem space_hold_restores_previous_tool_witness :
    (c10_params.hand_tool_id = some "hand0" ∧
     c10_state.dialog_state = none ∧
     c10_state.ctx.active_tool_id ≠ "hand0") ∧
    (((spaceDownFrame c10_params)^[2]
        (spaceDownFrame c10_params c10_state)).ctx.active_tool_id = "hand0" ∧
     ((spaceDownFrame c10_params)^[2]
        (spaceDownFrame c10_params c10_state)).ctx.previous_tool_id = "pen" ∧
     (processFrame c10_params
         ((spaceDownFrame c10_params)^[2] (spaceDownFrame c10_params c10_state))
         [Event.keyUp Key.space false false]).1.ctx.active_tool_id = "pen" ∧
     (processFrame c10_params
         ((spaceDownFrame c10_params)^[2] (spaceDownFrame c10_params c10_state))
         [Event.keyUp Key.space false false]).1.ctx.previous_tool_id = "pen") :=
  ⟨⟨rfl, rfl, by decide⟩,
   space_hold_restores_previous_tool c10_params c10_state sample_zoom_tool
     c10_hand "hand0" rfl rfl rfl rfl rfl (by decide) 2⟩

end DrawingGuess
